import Mathlib

/-!
Verification development for the music-soup repository's reconciliation and
deduplication core (sync orchestrator, Notion client upsert/cleanup logic and
the per-source track normalizers).

The JavaScript source is shallowly embedded: network calls are modelled by
explicit outcome parameters (`OpOutcome` / `Except`), the Notion database (the
"sink") by an explicit state value, and JavaScript string/truthiness semantics
by small helper functions.  Each definition cites the source file and function
it embeds.
-/

set_option autoImplicit false

deriving instance DecidableEq for Except

/-- Outcome of one external API call: the call either succeeds or throws. -/
inductive OpOutcome where
  | ok
  | fail
deriving DecidableEq, Repr

/-- JavaScript runtime error raised by the embedded code (only `TypeError` is
ever produced by the modelled fragments, from property access on `undefined`). -/
inductive JsErr where
  | typeError
deriving DecidableEq, Repr

/-- JavaScript value that can be `undefined` (key absent), `null`, or a proper
value.  Used where the source distinguishes the three (the normalizers assign
`null` to `duration` explicitly, while other missing fields stay `undefined`). -/
inductive JsVal (α : Type) where
  | undef
  | null
  | val (a : α)
deriving DecidableEq, Repr

/-- JavaScript `String.prototype.toLowerCase` (ASCII case mapping). -/
def jsToLower (s : String) : String :=
  ⟨s.data.map Char.toLower⟩

/-- JavaScript `String.prototype.includes` / the Notion `contains` filter:
`sub` occurs as a contiguous substring of `hay`. -/
def strContains (hay sub : String) : Bool :=
  decide (sub.data <:+: hay.data)

/-- JavaScript truthiness of a possibly-`undefined` string (`undefined`, `null`
and the empty string are falsy). -/
def optTruthy (o : Option String) : Bool :=
  match o with
  | none => false
  | some s => !s.isEmpty

/- Notion property names, from schema.js `NOTION_FIELDS`. -/

/-- schema.js NOTION_FIELDS.TRACK_TITLE. -/
def TRACK_TITLE : String := "Track Title"
/-- schema.js NOTION_FIELDS.TRACK_NUMBER. -/
def TRACK_NUMBER : String := "Track Number"
/-- schema.js NOTION_FIELDS.ALBUM. -/
def ALBUM : String := "Album"
/-- schema.js NOTION_FIELDS.ARTIST. -/
def ARTIST : String := "Artist"
/-- schema.js NOTION_FIELDS.PERFORMED_BY. -/
def PERFORMED_BY : String := "Performed By"
/-- schema.js NOTION_FIELDS.RELEASE_DATE. -/
def RELEASE_DATE : String := "Release Date"
/-- schema.js NOTION_FIELDS.DURATION. -/
def DURATION : String := "Duration"
/-- schema.js NOTION_FIELDS.ISRC_UPC. -/
def ISRC_UPC : String := "ISRC/UPC"
/-- schema.js NOTION_FIELDS.URL. -/
def URL_FIELD : String := "URL"
/-- schema.js NOTION_FIELDS.PLAYLIST. -/
def PLAYLIST : String := "Playlist"
/-- schema.js NOTION_FIELDS.TYPE. -/
def TYPE_FIELD : String := "Type"
/-- schema.js NOTION_FIELDS.REMOVED. -/
def REMOVED : String := "Removed"
/-- schema.js NOTION_FIELDS.COMPOSER. -/
def COMPOSER : String := "Composer"
/-- schema.js NOTION_FIELDS.RECORD_DATE (manual field, never written by the sync). -/
def RECORD_DATE : String := "Record Date"
/-- schema.js NOTION_FIELDS.THEMES (manual field). -/
def THEMES : String := "Themes"
/-- schema.js NOTION_FIELDS.NOTES (manual field). -/
def NOTES : String := "Notes"
/-- schema.js NOTION_FIELDS.INSTRUMENTS (manual field). -/
def INSTRUMENTS : String := "Instruments"
/-- schema.js NOTION_FIELDS.MOOD (manual field). -/
def MOOD : String := "Mood/Keywords"
/-- Field name read by cleanupRemovedTracks (`notionTrack.properties['Source']`);
it is not part of schema.js NOTION_FIELDS. -/
def SOURCE_FIELD : String := "Source"

/-- Value of one Notion page property.  `none` in the text-carrying variants
models the empty `rich_text`/`title` array that schema.js `formatRichText` /
`formatTitle` produce for a falsy input. -/
inductive PropValue where
  | titleVal (s : Option String)
  | richText (s : Option String)
  | number (n : Option Int)
  | selectVal (s : Option String)
  | urlVal (s : Option String)
  | checkbox (b : Bool)
deriving DecidableEq, Repr

/-- Property association list of a Notion page (the JS `properties` object). -/
abbrev Props := List (String × PropValue)

/-- Looks a property up by name (JS object member access). -/
def lookupProp (ps : Props) (k : String) : Option PropValue :=
  match ps with
  | [] => none
  | (k', v) :: rest => if k' = k then some v else lookupProp rest k

/-- Sets one property, replacing an existing entry of the same name (JS object
member assignment / the effect of one entry of a Notion page update). -/
def setProp (ps : Props) (k : String) (v : PropValue) : Props :=
  match ps with
  | [] => [(k, v)]
  | (k', v') :: rest => if k' = k then (k, v) :: rest else (k', v') :: setProp rest k v

/-- Applies a property patch left to right (Notion `pages.update`: every listed
property is written, unlisted properties are untouched). -/
def applyProps (ps : Props) (patch : Props) : Props :=
  patch.foldl (fun acc kv => setProp acc kv.1 kv.2) ps

/-- Persistent Record in the sink: one Notion page. -/
structure NPage where
  id : String
  props : Props
  createdTime : Nat
deriving DecidableEq, Repr

/-- State of the sink (the Notion database).  `pages` is kept newest-created
first: notionClient.js `queryDatabase` always sorts by `Created time`
descending, and `createTrack` prepends each freshly created page, so keeping
the list in that order makes the stored order coincide with every query's
result order. -/
structure SinkSt where
  pages : List NPage
  nextId : Nat
deriving DecidableEq, Repr

/-- Safe-navigation read of a rich_text property's plain text
(JS `properties[k]?.rich_text?.[0]?.text?.content`): `none` when the property
is absent, of another type, or an empty rich_text array. -/
def getRichTextContent (p : NPage) (k : String) : Option String :=
  match lookupProp p.props k with
  | some (PropValue.richText o) => o
  | _ => none

/-- Safe-navigation read of a title property's plain text
(JS `properties[k]?.title?.[0]?.text?.content`). -/
def getTitleContent (p : NPage) (k : String) : Option String :=
  match lookupProp p.props k with
  | some (PropValue.titleVal o) => o
  | _ => none

/-- Safe-navigation read of a select property's name
(JS `properties[k]?.select?.name`). -/
def getSelectName (p : NPage) (k : String) : Option String :=
  match lookupProp p.props k with
  | some (PropValue.selectVal o) => o
  | _ => none

/-- Read of a checkbox property; a missing checkbox is `false` (Notion default). -/
def getCheckbox (p : NPage) (k : String) : Bool :=
  match lookupProp p.props k with
  | some (PropValue.checkbox b) => b
  | _ => false

/-- notionClient.js `queryDatabase`: returns the pages matching the filter in
newest-created-first order (see `SinkSt.pages`), or throws when the underlying
API call fails. -/
def queryDatabase (filter : NPage → Bool) (st : SinkSt) (q : OpOutcome) :
    Except Unit (List NPage) :=
  match q with
  | OpOutcome.fail => Except.error ()
  | OpOutcome.ok => Except.ok (st.pages.filter filter)

/-- Notion `rich_text contains` filter on property `k` with query value `v`
(false when the property is missing or empty, as in the Notion API). -/
def propRichTextContains (p : NPage) (k : String) (v : String) : Bool :=
  match getRichTextContent p k with
  | none => false
  | some s => strContains s v

/-- Notion `title contains` filter on property `k` with query value `v`. -/
def propTitleContains (p : NPage) (k : String) (v : String) : Bool :=
  match getTitleContent p k with
  | none => false
  | some s => strContains s v

/-- notionClient.js `findTrackByIsrc`: guard on a falsy `isrc`, query the sink
for pages whose `ISRC/UPC` rich_text contains the value, return the first
result; any query error is caught and converted to `null`. -/
def findTrackByIsrc (isrc : String) (st : SinkSt) (q : OpOutcome) : Option NPage :=
  if isrc.isEmpty then none
  else
    match queryDatabase (fun p => propRichTextContains p ISRC_UPC isrc) st q with
    | Except.error _ => none
    | Except.ok results => results.head?

/-- Artist check applied in-memory by `findTrackByTitleArtist`: the candidate's
stored `Artist` rich_text, lowercased, contains the searched artist lowercased
(a candidate with a missing or empty stored artist never matches). -/
def artistMatches (artist : String) (p : NPage) : Bool :=
  match getRichTextContent p ARTIST with
  | none => false
  | some existingArtist =>
    !existingArtist.isEmpty && strContains (jsToLower existingArtist) (jsToLower artist)

/-- notionClient.js `findTrackByTitleArtist`: guard on falsy `title` or
`artist`, query the sink for pages whose `Track Title` contains the title,
then return the first result (sink order: newest created first) whose stored
artist matches; any query error is caught and converted to `null`. -/
def findTrackByTitleArtist (title : String) (artist : Option String) (st : SinkSt)
    (q : OpOutcome) : Option NPage :=
  match artist with
  | none => none
  | some a =>
    if title.isEmpty || a.isEmpty then none
    else
      match queryDatabase (fun p => propTitleContains p TRACK_TITLE title) st q with
      | Except.error _ => none
      | Except.ok results => results.find? (artistMatches a)

/-- Canonical Track produced by a normalizer (the JS `trackData` object).
Optional fields are `none` when the corresponding key was never assigned
(JS `undefined`); `duration` keeps the full `undefined`/`null`/number
distinction because the normalizers assign `null` to it explicitly. -/
structure TrackData where
  source : String
  sourceId : String
  title : String
  url : Option String
  duration : JsVal Nat
  trackNumber : Option Int
  explicit : Bool
  popularity : Option Int
  artist : Option String
  performedBy : Option String
  album : Option String
  releaseDate : Option String
  label : Option String
  isrc : Option String
  composer : Option String
  genre : Option String
  type : String
  playlist : String
  playlistType : Option String
deriving DecidableEq, Repr

/-- schema.js `formatDuration`: seconds to a `M:SS` string, `null` for a falsy
or non-numeric input. -/
def formatDuration (seconds : Nat) : Option String :=
  if seconds = 0 then none
  else
    let secs := toString (seconds % 60)
    some (toString (seconds / 60) ++ ":" ++ (if secs.length < 2 then "0" ++ secs else secs))

/-- schema.js `formatReleaseYear`: year prefix of a `YYYY-MM-DD` date string as
a number, `null` when it does not parse. -/
def formatReleaseYear (releaseDate : String) : Option Int :=
  (releaseDate.takeWhile (fun c => c ≠ '-')).toInt?

/-- notionClient.js `buildTrackProperties`: the property patch built from a
track's automated fields, in source order, always ending by forcing
`Removed = false`.  The `isUpdate` flag exists in the source but is unused
there as well. -/
def buildTrackProperties (td : TrackData) (isUpdate : Bool) : Props :=
  let _ := isUpdate
  (if !td.title.isEmpty then [(TRACK_TITLE, PropValue.titleVal (some td.title))] else [])
  ++ (match td.trackNumber with
      | some n => [(TRACK_NUMBER, PropValue.number (some n))]
      | none => [])
  ++ (if optTruthy td.album then [(ALBUM, PropValue.richText td.album)] else [])
  ++ (if optTruthy td.artist then [(ARTIST, PropValue.richText td.artist)] else [])
  ++ (if optTruthy td.performedBy then [(PERFORMED_BY, PropValue.richText td.performedBy)] else [])
  ++ (match td.releaseDate with
      | some rd =>
        if !rd.isEmpty then [(RELEASE_DATE, PropValue.number (formatReleaseYear rd))] else []
      | none => [])
  ++ (match td.duration with
      | JsVal.undef => []
      | JsVal.null => [(DURATION, PropValue.richText none)]
      | JsVal.val n => [(DURATION, PropValue.richText (formatDuration n))])
  ++ (if optTruthy td.isrc then [(ISRC_UPC, PropValue.richText td.isrc)] else [])
  ++ (if optTruthy td.url then [(URL_FIELD, PropValue.urlVal td.url)] else [])
  ++ (if !td.playlist.isEmpty then [(PLAYLIST, PropValue.selectVal (some td.playlist))] else [])
  ++ (if !td.type.isEmpty then [(TYPE_FIELD, PropValue.selectVal (some td.type))] else [])
  ++ (if optTruthy td.composer then [(COMPOSER, PropValue.richText td.composer)] else [])
  ++ [(REMOVED, PropValue.checkbox false)]

/-- notionClient.js `createTrack`: in dry-run mode no sink mutation happens and
a stub page with id `dry-run-id` is returned; otherwise the page is created in
the sink (newest first) or the API error is rethrown. -/
def createTrack (dryRun : Bool) (td : TrackData) (st : SinkSt) (w : OpOutcome) :
    Except Unit (NPage × SinkSt) :=
  let props := buildTrackProperties td false
  if dryRun then
    Except.ok ({ id := "dry-run-id", props := props, createdTime := st.nextId }, st)
  else
    match w with
    | OpOutcome.fail => Except.error ()
    | OpOutcome.ok =>
      let page : NPage :=
        { id := "page-" ++ toString st.nextId, props := props, createdTime := st.nextId }
      Except.ok (page, { pages := page :: st.pages, nextId := st.nextId + 1 })

/-- notionClient.js `updateTrack`: in dry-run mode no sink mutation happens;
otherwise the patch from `buildTrackProperties` is applied to every page with
the given id (ids are unique in a real sink), or the API error is rethrown. -/
def updateTrack (dryRun : Bool) (pageId : String) (td : TrackData) (st : SinkSt)
    (w : OpOutcome) : Except Unit SinkSt :=
  let props := buildTrackProperties td true
  if dryRun then Except.ok st
  else
    match w with
    | OpOutcome.fail => Except.error ()
    | OpOutcome.ok =>
      Except.ok
        { st with
          pages := st.pages.map (fun q =>
            if q.id = pageId then { q with props := applyProps q.props props } else q) }

/-- notionClient.js `markTrackRemoved`: in dry-run mode no sink mutation
happens; otherwise the page's `Removed` checkbox is set to true, or the API
error is rethrown. -/
def markTrackRemoved (dryRun : Bool) (pageId : String) (st : SinkSt) (w : OpOutcome) :
    Except Unit SinkSt :=
  if dryRun then Except.ok st
  else
    match w with
    | OpOutcome.fail => Except.error ()
    | OpOutcome.ok =>
      Except.ok
        { st with
          pages := st.pages.map (fun q =>
            if q.id = pageId then { q with props := setProp q.props REMOVED (PropValue.checkbox true) } else q) }

/- Track normalizers (spotifyClient.js / appleMusicClient.js `processTrackData`). -/

/-- Album object of a raw Spotify track (`track.album`). -/
structure SpotifyAlbum where
  name : String
  release_date : Option String
  label : Option String
deriving DecidableEq, Repr

/-- Raw Spotify track item as consumed by spotifyClient.js `processTrackData`. -/
structure SpotifyRawTrack where
  id : String
  name : String
  spotifyUrl : Option String
  duration_ms : Option Nat
  track_number : Option Int
  explicit : Bool
  popularity : Option Int
  artists : List String
  album : Option SpotifyAlbum
  isrc : Option String
deriving DecidableEq, Repr

/-- JavaScript `Math.round (ms / 1000)` for a nonnegative millisecond count:
half-second ties round up. -/
def jsRoundDiv1000 (ms : Nat) : Nat :=
  (ms + 500) / 1000

/-- Joins artist names with `', '` (JS `track.artists.map(a => a.name).join(', ')`). -/
def joinArtists : List String → String
  | [] => ""
  | [a] => a
  | a :: rest => a ++ ", " ++ joinArtists rest

/-- spotifyClient.js `processTrackData`: normalizes a raw Spotify track.
`playlistMeta` is the outcome of the extra `getPlaylist` fetch for the playlist
name; on failure the playlist id is substituted.  `duration` is set to
`Math.round(duration_ms / 1000)` when `duration_ms` is truthy and to `null`
otherwise (so a missing or zero `duration_ms` yields `null`, not an absent
key). -/
def spotifyProcessTrackData (track : SpotifyRawTrack) (playlistId : String)
    (playlistMeta : Except Unit String) : TrackData :=
  { source := "Spotify"
    sourceId := track.id
    title := track.name
    url := track.spotifyUrl
    duration :=
      match track.duration_ms with
      | some ms => if ms ≠ 0 then JsVal.val (jsRoundDiv1000 ms) else JsVal.null
      | none => JsVal.null
    trackNumber := track.track_number
    explicit := track.explicit
    popularity := track.popularity
    artist := if track.artists.length > 0 then some (joinArtists track.artists) else none
    performedBy := if track.artists.length > 0 then some (joinArtists track.artists) else none
    album := (track.album.map (fun a => a.name))
    releaseDate := track.album.bind (fun a => a.release_date)
    label := track.album.bind (fun a => a.label)
    isrc := track.isrc
    composer := none
    genre := none
    type := "Source"
    playlist := match playlistMeta with | Except.ok n => n | Except.error _ => playlistId
    playlistType := none }

/-- Attributes of a raw Apple Music track (`track.attributes`). -/
structure AppleAttrs where
  name : String
  url : Option String
  durationInMillis : Option Nat
  trackNumber : Option Int
  contentRating : Option String
  artistName : Option String
  albumName : Option String
  releaseDate : Option String
  recordLabel : Option String
  isrc : Option String
  composerName : Option String
  genreNames : List String
deriving DecidableEq, Repr

/-- Raw Apple Music catalog item as consumed by appleMusicClient.js. -/
structure AppleRawTrack where
  id : String
  type : String
  attributes : AppleAttrs
deriving DecidableEq, Repr

/-- Keys of config.js `module.exports` (the whole export object). -/
def configExportNames : List String :=
  ["notion", "spotify", "appleMusic", "config", "getAllConfiguredPlaylists",
   "requireEnv", "getEnv"]

/-- Value of `config.playlistTypes` as seen by appleMusicClient.js line 338:
config.js exports no `playlistTypes` key (see `configExportNames`), so the
member access yields `undefined`, modelled as `none`. -/
def configPlaylistTypes : Option (String → Option String) := none

/-- Joins genre names with `', '`. -/
def joinGenres : List String → String
  | [] => ""
  | [g] => g
  | g :: rest => g ++ ", " ++ joinGenres rest

/-- appleMusicClient.js `processTrackData`: normalizes a raw Apple Music track.
The function evaluates `config.playlistTypes[playlistId] || 'Source'`; since
`config.playlistTypes` is `undefined` (see `configPlaylistTypes`), indexing it
throws a TypeError in JavaScript, so the whole normalization throws before
returning a track. -/
def appleProcessTrackData (track : AppleRawTrack) (playlistId : String)
    (playlistMeta : Except Unit String) : Except JsErr TrackData :=
  match configPlaylistTypes with
  | none => Except.error JsErr.typeError
  | some types =>
    Except.ok
      { source := "Apple Music"
        sourceId := track.id
        title := track.attributes.name
        url := track.attributes.url
        duration :=
          match track.attributes.durationInMillis with
          | some ms => if ms ≠ 0 then JsVal.val (jsRoundDiv1000 ms) else JsVal.null
          | none => JsVal.null
        trackNumber := track.attributes.trackNumber
        explicit := track.attributes.contentRating = some "explicit"
        popularity := none
        artist := track.attributes.artistName
        performedBy := track.attributes.artistName
        album := track.attributes.albumName
        releaseDate := track.attributes.releaseDate
        label := track.attributes.recordLabel
        isrc := track.attributes.isrc
        composer := track.attributes.composerName
        genre :=
          if track.attributes.genreNames.length > 0
          then some (joinGenres track.attributes.genreNames) else none
        type := (types playlistId).getD "Source"
        playlist := match playlistMeta with | Except.ok n => n | Except.error _ => playlistId
        playlistType := none }

/-- appleMusicClient.js `getPlaylistTracks` (per-item processing): every item
with `type === 'songs'` is normalized; a thrown normalization error propagates
out of the function (the catch rethrows). -/
def appleGetPlaylistTracks (raws : List AppleRawTrack) (playlistId : String)
    (playlistMeta : Except Unit String) : Except JsErr (List TrackData) :=
  match raws with
  | [] => Except.ok []
  | r :: rest =>
    if r.type = "songs" then
      match appleProcessTrackData r playlistId playlistMeta with
      | Except.error e => Except.error e
      | Except.ok td =>
        match appleGetPlaylistTracks rest playlistId playlistMeta with
        | Except.error e => Except.error e
        | Except.ok tds => Except.ok (td :: tds)
    else appleGetPlaylistTracks rest playlistId playlistMeta

/- Sync orchestrator, current version (src/unnamed/part_006, syncOrchestrator.js). -/

/-- Result label of `syncTrackToNotion`. -/
inductive SyncResult where
  | created
  | updated
  | skipped
deriving DecidableEq, Repr

/-- Outcomes of the external calls made while syncing one track: the ISRC
query, the title/artist query, and the sink write (create or update). -/
structure TrackFx where
  isrcQ : OpOutcome
  taQ : OpOutcome
  write : OpOutcome
deriving DecidableEq, Repr

/-- TrackFx with every call succeeding. -/
def okFx : TrackFx := { isrcQ := OpOutcome.ok, taQ := OpOutcome.ok, write := OpOutcome.ok }

/-- Identity resolution sequence shared by both orchestrator versions
(`syncTrackToNotion` in part_006 lines 661-670 and part_000): try
`findTrackByIsrc` when the track's `isrc` is truthy, fall back to
`findTrackByTitleArtist`. -/
def resolveExistingTrack (td : TrackData) (st : SinkSt) (isrcQ taQ : OpOutcome) :
    Option NPage :=
  let viaIsrc :=
    if optTruthy td.isrc then findTrackByIsrc (td.isrc.getD "") st isrcQ else none
  match viaIsrc with
  | some p => some p
  | none => findTrackByTitleArtist td.title td.artist st taQ

/-- syncOrchestrator.js (part_006) `syncTrackToNotion`: resolve the track; an
existing record is always skipped ("Preserving manual edits"), otherwise a new
record is created; a create failure is rethrown to the caller. -/
def syncTrackToNotion (dryRun : Bool) (td : TrackData) (st : SinkSt) (fx : TrackFx) :
    Except Unit (SyncResult × SinkSt) :=
  match resolveExistingTrack td st fx.isrcQ fx.taQ with
  | some _ => Except.ok (SyncResult.skipped, st)
  | none =>
    match createTrack dryRun td st fx.write with
    | Except.error e => Except.error e
    | Except.ok (_, st') => Except.ok (SyncResult.created, st')

/-- syncOrchestrator.js (part_000, the update-mode deployment) `syncTrackToNotion`:
resolve the track; an existing record is updated in place via `updateTrack`,
otherwise a new record is created; a write failure is rethrown to the caller. -/
def syncTrackToNotionUpdateMode (dryRun : Bool) (td : TrackData) (st : SinkSt)
    (fx : TrackFx) : Except Unit (SyncResult × SinkSt) :=
  match resolveExistingTrack td st fx.isrcQ fx.taQ with
  | some existingTrack =>
    match updateTrack dryRun existingTrack.id td st fx.write with
    | Except.error e => Except.error e
    | Except.ok st' => Except.ok (SyncResult.updated, st')
  | none =>
    match createTrack dryRun td st fx.write with
    | Except.error e => Except.error e
    | Except.ok (_, st') => Except.ok (SyncResult.created, st')

/-- Per-playlist statistics accumulated by the part_006 playlist drivers. -/
structure SyncResults where
  added : Nat
  updated : Nat
  skipped : Nat
  errors : Nat
  tracks : List (String × SyncResult)
deriving DecidableEq, Repr

/-- Empty statistics. -/
def emptyResults : SyncResults :=
  { added := 0, updated := 0, skipped := 0, errors := 0, tracks := [] }

/-- Loop body of the part_006 playlist drivers: the track is given the
playlist's type (`{...track, type: playlistType, playlistType}`), synced, and
counted; a thrown per-track error is caught, counted, and iteration
continues. -/
def syncPlaylistStep (dryRun : Bool) (playlistType : String)
    (acc : SyncResults × SinkSt) (item : TrackData × TrackFx) : SyncResults × SinkSt :=
  let (r, st) := acc
  let td := { item.1 with type := playlistType, playlistType := some playlistType }
  match syncTrackToNotion dryRun td st item.2 with
  | Except.error _ => ({ r with errors := r.errors + 1 }, st)
  | Except.ok (res, st') =>
    let r := { r with tracks := r.tracks ++ [(td.title, res)] }
    match res with
    | SyncResult.created => ({ r with added := r.added + 1 }, st')
    | SyncResult.updated => ({ r with updated := r.updated + 1 }, st')
    | SyncResult.skipped => ({ r with skipped := r.skipped + 1 }, st')

/-- Which streaming service a configured playlist belongs to. -/
inductive Service where
  | spotify
  | appleMusic
deriving DecidableEq, Repr

/-- One configured playlist together with the outcomes of the external calls
its sync performs: the health check, the playlist-metadata fetch, and the
track fetch (whose success carries the normalized tracks paired with the
outcomes of each track's own sink calls). -/
structure PlaylistJob where
  service : Service
  playlistType : String
  healthy : Bool
  meta : OpOutcome
  fetch : Except Unit (List (TrackData × TrackFx))
deriving Repr

/-- syncOrchestrator.js (part_006) `syncSpotifyPlaylist`: a failed health
check, metadata fetch or track fetch throws (aborting only this playlist);
otherwise every track is processed with per-track error recovery. -/
def syncSpotifyPlaylist (dryRun : Bool) (job : PlaylistJob) (st : SinkSt) :
    Except Unit (SyncResults × SinkSt) :=
  if !job.healthy then Except.error ()
  else
    match job.meta with
    | OpOutcome.fail => Except.error ()
    | OpOutcome.ok =>
      match job.fetch with
      | Except.error _ => Except.error ()
      | Except.ok items =>
        Except.ok (items.foldl (syncPlaylistStep dryRun job.playlistType) (emptyResults, st))

/-- syncOrchestrator.js (part_006) `syncAppleMusicPlaylist`: structurally
identical to the Spotify driver. -/
def syncAppleMusicPlaylist (dryRun : Bool) (job : PlaylistJob) (st : SinkSt) :
    Except Unit (SyncResults × SinkSt) :=
  if !job.healthy then Except.error ()
  else
    match job.meta with
    | OpOutcome.fail => Except.error ()
    | OpOutcome.ok =>
      match job.fetch with
      | Except.error _ => Except.error ()
      | Except.ok items =>
        Except.ok (items.foldl (syncPlaylistStep dryRun job.playlistType) (emptyResults, st))

/-- Per-service accumulator of `syncAllPlaylists`. -/
structure ServiceSummary where
  added : Nat
  updated : Nat
  skipped : Nat
  errors : Nat
deriving DecidableEq, Repr

/-- Whole-run summary of `syncAllPlaylists`. -/
structure AllSummary where
  spotify : ServiceSummary
  appleMusic : ServiceSummary
  processed : Nat
  successful : Nat
  skippedTotal : Nat
  errorsTotal : Nat
deriving DecidableEq, Repr

/-- Adds one playlist's results into a service bucket. -/
def addToBucket (b : ServiceSummary) (r : SyncResults) : ServiceSummary :=
  { added := b.added + r.added, updated := b.updated + r.updated,
    skipped := b.skipped + r.skipped, errors := b.errors + r.errors }

/-- Loop body of `syncAllPlaylists`: sync one playlist with the matching
driver; a thrown playlist-level error is caught and counted against the
playlist's service and the total. -/
def syncOnePlaylist (dryRun : Bool) (acc : AllSummary × SinkSt) (job : PlaylistJob) :
    AllSummary × SinkSt :=
  let (s, st) := acc
  let result :=
    match job.service with
    | Service.spotify => syncSpotifyPlaylist dryRun job st
    | Service.appleMusic => syncAppleMusicPlaylist dryRun job st
  match result with
  | Except.error _ =>
    (match job.service with
     | Service.spotify =>
       let sp := { s.spotify with errors := s.spotify.errors + 1 }
       ({ s with spotify := sp, errorsTotal := s.errorsTotal + 1 }, st)
     | Service.appleMusic =>
       let am := { s.appleMusic with errors := s.appleMusic.errors + 1 }
       ({ s with appleMusic := am, errorsTotal := s.errorsTotal + 1 }, st))
  | Except.ok (r, st') =>
    let s :=
      match job.service with
      | Service.spotify => { s with spotify := addToBucket s.spotify r }
      | Service.appleMusic => { s with appleMusic := addToBucket s.appleMusic r }
    ({ s with
       processed := s.processed + r.added + r.updated,
       successful := s.successful + r.added + r.updated,
       skippedTotal := s.skippedTotal + r.skipped,
       errorsTotal := s.errorsTotal + r.errors }, st')

/-- Empty whole-run summary. -/
def emptySummary : AllSummary :=
  { spotify := { added := 0, updated := 0, skipped := 0, errors := 0 },
    appleMusic := { added := 0, updated := 0, skipped := 0, errors := 0 },
    processed := 0, successful := 0, skippedTotal := 0, errorsTotal := 0 }

/-- syncOrchestrator.js (part_006) `syncAllPlaylists`: iterates every
configured playlist with per-playlist error recovery; it always returns a
summary. -/
def syncAllPlaylists (dryRun : Bool) (jobs : List PlaylistJob) (st : SinkSt) :
    AllSummary × SinkSt :=
  jobs.foldl (syncOnePlaylist dryRun) (emptySummary, st)

/- Cleanup reconciler (part_006 `cleanupRemovedTracks`) and `fullSync`. -/

/-- Live-identity keys contributed by one live track, in source order:
`if (track.isrc) currentTrackIds.add(track.isrc)` followed by the mandatory
composite `` `${track.title.toLowerCase()}:${track.artist.toLowerCase()}` ``.
A track whose `artist` is `undefined` makes the composite expression throw a
TypeError (`.toLowerCase` of `undefined`). -/
def liveIdsOfTrack (t : TrackData) : Except JsErr (List String) :=
  match t.artist with
  | none => Except.error JsErr.typeError
  | some a =>
    Except.ok ((if optTruthy t.isrc then [t.isrc.getD ""] else [])
      ++ [jsToLower t.title ++ ":" ++ jsToLower a])

/-- Builds the live-identity set (modelled as a list with membership queries)
from all fetched live tracks; the first TypeError aborts the whole
construction, exactly as the unguarded `forEach` in the source does. -/
def buildLiveIds : List TrackData → Except JsErr (List String)
  | [] => Except.ok []
  | t :: ts =>
    match liveIdsOfTrack t with
    | Except.error e => Except.error e
    | Except.ok ids =>
      match buildLiveIds ts with
      | Except.error e => Except.error e
      | Except.ok rest => Except.ok (ids ++ rest)

/-- Cleanup statistics (`{ marked, errors }`). -/
structure CleanupResults where
  marked : Nat
  errors : Nat
deriving DecidableEq, Repr

/-- External-call outcomes consumed by one cleanup run: the initial
all-non-removed sink query, the per-playlist live-track re-fetches (a failed
fetch is caught and contributes nothing), and whether the removal write for a
given page id fails. -/
structure CleanupFx where
  dbQuery : OpOutcome
  liveFetches : List (Except Unit (List TrackData))
  markFail : String → Bool

/-- Manual-entry exemption test of `cleanupRemovedTracks`: records whose
`Source` select is `Link Only` or `File Upload` are skipped entirely. -/
def isManualSource (p : NPage) : Bool :=
  getSelectName p SOURCE_FIELD = some "Link Only"
    || getSelectName p SOURCE_FIELD = some "File Upload"

/-- Membership test of `cleanupRemovedTracks`: the record's `isrc` (when
truthy) or its lowercased `title:artist` composite (when both are truthy)
appears in the live-identity set. -/
def trackExistsLive (ids : List String) (p : NPage) : Bool :=
  let isrc := getRichTextContent p ISRC_UPC
  let title := getTitleContent p TRACK_TITLE
  let artist := getRichTextContent p ARTIST
  (optTruthy isrc && ids.contains (isrc.getD ""))
    || (optTruthy title && optTruthy artist
        && ids.contains (jsToLower (title.getD "") ++ ":" ++ jsToLower (artist.getD "")))

/-- Loop body of `cleanupRemovedTracks`: skip manually-added records, keep
records found in the live set, otherwise mark the record removed; a failed
removal write is caught and counted, and iteration continues. -/
def cleanupStep (dryRun : Bool) (ids : List String) (markFail : String → Bool)
    (acc : CleanupResults × SinkSt) (p : NPage) : CleanupResults × SinkSt :=
  let (res, st) := acc
  if isManualSource p then acc
  else if trackExistsLive ids p then acc
  else
    match markTrackRemoved dryRun p.id st (if markFail p.id then OpOutcome.fail else OpOutcome.ok) with
    | Except.error _ => ({ res with errors := res.errors + 1 }, st)
    | Except.ok st' => ({ res with marked := res.marked + 1 }, st')

/-- syncOrchestrator.js (part_006) `cleanupRemovedTracks`: fetch the snapshot
of all non-removed records (a query failure is rethrown), re-fetch the live
tracks of every configured playlist (failures caught per playlist), build the
live-identity set (propagating the TypeError of an artist-less track, which
the outer catch rethrows), then process every snapshot record with per-record
error recovery. -/
def cleanupRemovedTracks (dryRun : Bool) (st : SinkSt) (fx : CleanupFx) :
    Except Unit (CleanupResults × SinkSt) :=
  match queryDatabase (fun p => !getCheckbox p REMOVED) st fx.dbQuery with
  | Except.error _ => Except.error ()
  | Except.ok snapshot =>
    let live := fx.liveFetches.foldl
      (fun acc f => match f with | Except.error _ => acc | Except.ok ts => acc ++ ts) []
    match buildLiveIds live with
    | Except.error _ => Except.error ()
    | Except.ok ids =>
      Except.ok (snapshot.foldl (cleanupStep dryRun ids fx.markFail) ({ marked := 0, errors := 0 }, st))

/-- syncOrchestrator.js (part_006) `fullSync`: sync every playlist, then run
the cleanup reconciler; a cleanup throw propagates out of `fullSync` (both
catch blocks rethrow). -/
def fullSync (dryRun : Bool) (jobs : List PlaylistJob) (cfx : CleanupFx) (st : SinkSt) :
    Except Unit (AllSummary × CleanupResults × SinkSt) :=
  let (summary, st1) := syncAllPlaylists dryRun jobs st
  match cleanupRemovedTracks dryRun st1 cfx with
  | Except.error e => Except.error e
  | Except.ok (cres, st2) => Except.ok (summary, cres, st2)

/- Update-mode playlist driver (src/unnamed/part_000 `syncSpotifyPlaylist`). -/

/-- Per-playlist statistics of the part_000 (update-mode) driver, which has no
`skipped` counter. -/
structure SyncResultsU where
  added : Nat
  updated : Nat
  errors : Nat
  tracks : List (String × SyncResult)
deriving DecidableEq, Repr

/-- Loop body of the part_000 driver: the track is synced as-is (no playlist
type override in that version) and counted; per-track errors are caught and
counted. -/
def syncPlaylistStepUpdateMode (dryRun : Bool) (acc : SyncResultsU × SinkSt)
    (item : TrackData × TrackFx) : SyncResultsU × SinkSt :=
  let (r, st) := acc
  match syncTrackToNotionUpdateMode dryRun item.1 st item.2 with
  | Except.error _ => ({ r with errors := r.errors + 1 }, st)
  | Except.ok (res, st') =>
    let r := { r with tracks := r.tracks ++ [(item.1.title, res)] }
    match res with
    | SyncResult.created => ({ r with added := r.added + 1 }, st')
    | SyncResult.updated => ({ r with updated := r.updated + 1 }, st')
    | SyncResult.skipped => (r, st')

/-- syncOrchestrator.js (part_000, update-mode deployment) `syncSpotifyPlaylist`:
health check, metadata fetch, track fetch, then the per-track loop with
per-track error recovery. -/
def syncSpotifyPlaylistUpdateMode (dryRun : Bool) (job : PlaylistJob) (st : SinkSt) :
    Except Unit (SyncResultsU × SinkSt) :=
  if !job.healthy then Except.error ()
  else
    match job.meta with
    | OpOutcome.fail => Except.error ()
    | OpOutcome.ok =>
      match job.fetch with
      | Except.error _ => Except.error ()
      | Except.ok items =>
        Except.ok (items.foldl (syncPlaylistStepUpdateMode dryRun)
          ({ added := 0, updated := 0, errors := 0, tracks := [] }, st))

/- Generic lemmas about the embedding's data structures. -/

/-- String containment is reflexive (every string contains itself). -/
theorem strContains_refl (s : String) : strContains s s = true :=
  decide_eq_true (List.infix_refl s.data)

/-- Looking up the key just set returns the new value. -/
theorem lookupProp_setProp_self (ps : Props) (k : String) (v : PropValue) :
    lookupProp (setProp ps k v) k = some v := by
  induction ps with
  | nil => simp [setProp, lookupProp]
  | cons hd tl ih =>
    by_cases h : hd.1 = k
    · simp [setProp, h, lookupProp]
    · simp [setProp, h, lookupProp, ih]

/-- Setting one key leaves every other key's value unchanged. -/
theorem lookupProp_setProp_ne (ps : Props) (k k' : String) (v : PropValue)
    (h : k' ≠ k) : lookupProp (setProp ps k v) k' = lookupProp ps k' := by
  induction ps with
  | nil => simp [setProp, lookupProp, Ne.symm h]
  | cons hd tl ih =>
    by_cases hk : hd.1 = k
    · simp [setProp, hk, lookupProp, Ne.symm h, hk ▸ (Ne.symm h)]
    · simp [setProp, hk, lookupProp, ih]

/-- Setting the same key to the same value twice is the same as doing it once. -/
theorem setProp_setProp_self (ps : Props) (k : String) (v : PropValue) :
    setProp (setProp ps k v) k v = setProp ps k v := by
  induction ps with
  | nil => simp [setProp]
  | cons hd tl ih =>
    by_cases h : hd.1 = k
    · simp [setProp, h]
    · simp [setProp, h, ih]

/-- Applying an empty patch changes nothing. -/
theorem applyProps_nil (ps : Props) : applyProps ps [] = ps := rfl

/-- Patch application splits over patch concatenation. -/
theorem applyProps_append (ps : Props) (l₁ l₂ : Props) :
    applyProps ps (l₁ ++ l₂) = applyProps (applyProps ps l₁) l₂ :=
  List.foldl_append _ _ _ _

/-- A key not mentioned by the patch keeps its value under patch application. -/
theorem lookupProp_applyProps_not_mem (patch : Props) (ps : Props) (k : String)
    (h : k ∉ patch.map Prod.fst) :
    lookupProp (applyProps ps patch) k = lookupProp ps k := by
  induction patch generalizing ps with
  | nil => rfl
  | cons hd tl ih =>
    simp only [List.map_cons, List.mem_cons, not_or] at h
    have : applyProps ps (hd :: tl) = applyProps (setProp ps hd.1 hd.2) tl := rfl
    rw [this, ih _ h.2, lookupProp_setProp_ne _ _ _ _ h.1]

/-- The automated Notion fields the sync may write, per the spec's data model:
every Track attribute mirrored into a Record, plus the `Removed` flag. -/
def automatedFieldNames : List String :=
  [TRACK_TITLE, TRACK_NUMBER, ALBUM, ARTIST, PERFORMED_BY, RELEASE_DATE,
   DURATION, ISRC_UPC, URL_FIELD, PLAYLIST, TYPE_FIELD, COMPOSER, REMOVED]

/-- Manual annotation fields (schema.js `automated: false`, excluding
`Composer`, which the spec's Track data model lists as an automated
attribute). -/
def manualFieldNames : List String :=
  [RECORD_DATE, THEMES, NOTES, INSTRUMENTS, MOOD]

/-- Every key written by `buildTrackProperties` is an automated field name. -/
theorem buildTrackProperties_keys_subset (td : TrackData) (b : Bool) :
    (buildTrackProperties td b).map Prod.fst ⊆ automatedFieldNames := by
  unfold buildTrackProperties
  rcases htn : td.trackNumber with _ | n <;>
  rcases hrd : td.releaseDate with _ | rd <;>
  rcases hd : td.duration with _ | _ | secs <;>
  · simp only [htn, hrd, hd, List.map_append, List.append_subset]
    repeat' apply And.intro
    all_goals
      first
        | (split <;> simp [automatedFieldNames])
        | simp [automatedFieldNames]

/-- The patch built from a track never touches a manual annotation field. -/
theorem manual_not_in_buildTrackProperties (td : TrackData) (b : Bool) (k : String)
    (hman : k ∈ manualFieldNames) : k ∉ (buildTrackProperties td b).map Prod.fst := by
  intro hk
  have hauto := buildTrackProperties_keys_subset td b hk
  simp [manualFieldNames, automatedFieldNames, TRACK_TITLE, TRACK_NUMBER, ALBUM,
    ARTIST, PERFORMED_BY, RELEASE_DATE, DURATION, ISRC_UPC, URL_FIELD, PLAYLIST,
    TYPE_FIELD, COMPOSER, REMOVED, RECORD_DATE, THEMES, NOTES, INSTRUMENTS, MOOD]
      at hman hauto
  rcases hman with h|h|h|h|h <;> subst h <;> simp_all

/-- The patch built from a track always ends by forcing `Removed = false`, so
the patched record has `Removed = false`. -/
theorem lookupProp_applyProps_buildTrackProperties_removed (td : TrackData) (b : Bool)
    (ps : Props) :
    lookupProp (applyProps ps (buildTrackProperties td b)) REMOVED =
      some (PropValue.checkbox false) := by
  unfold buildTrackProperties
  simp only [applyProps_append]
  exact lookupProp_setProp_self _ _ _

/- Claim theorems. -/

/-- C8: resolution never throws — any sink query error during the ISRC lookup
or the title/artist lookup is caught and converted into a no-match outcome, so
each lookup, and the whole resolution sequence, returns null instead of
propagating the error to its caller. -/
theorem C8_resolution_never_throws :
    (∀ (isrc : String) (st : SinkSt), findTrackByIsrc isrc st OpOutcome.fail = none)
    ∧ (∀ (title : String) (artist : Option String) (st : SinkSt),
        findTrackByTitleArtist title artist st OpOutcome.fail = none)
    ∧ (∀ (td : TrackData) (st : SinkSt),
        resolveExistingTrack td st OpOutcome.fail OpOutcome.fail = none) := by
  refine ⟨fun isrc st => ?_, fun title artist st => ?_, fun td st => ?_⟩
  · unfold findTrackByIsrc queryDatabase
    split <;> rfl
  · unfold findTrackByTitleArtist queryDatabase
    rcases artist with _ | a
    · rfl
    · simp only
      split <;> rfl
  · unfold resolveExistingTrack
    have h1 : findTrackByIsrc (td.isrc.getD "") st OpOutcome.fail = none := by
      unfold findTrackByIsrc queryDatabase
      split <;> rfl
    have h2 : findTrackByTitleArtist td.title td.artist st OpOutcome.fail = none := by
      unfold findTrackByTitleArtist queryDatabase
      rcases td.artist with _ | a
      · rfl
      · simp only
        split <;> rfl
    split <;> simp_all

/-- C7: with the dry-run flag set, none of the three sink mutations
(`createTrack`, `updateTrack`, `markTrackRemoved`) changes the sink, the
dry-run create returns the stub `dry-run-id` page, and the upsert decision
label reported for a track is exactly the label the non-dry-run path would
report. -/
theorem C7_dry_run_no_mutation :
    (∀ (td : TrackData) (st : SinkSt) (w : OpOutcome),
        createTrack true td st w =
          Except.ok ({ id := "dry-run-id", props := buildTrackProperties td false,
                       createdTime := st.nextId }, st))
    ∧ (∀ (pid : String) (td : TrackData) (st : SinkSt) (w : OpOutcome),
        updateTrack true pid td st w = Except.ok st)
    ∧ (∀ (pid : String) (st : SinkSt) (w : OpOutcome),
        markTrackRemoved true pid st w = Except.ok st)
    ∧ (∀ (td : TrackData) (st : SinkSt) (fx : TrackFx), fx.write = OpOutcome.ok →
        (syncTrackToNotion true td st fx).map Prod.snd = Except.ok st
        ∧ (syncTrackToNotion true td st fx).map Prod.fst =
            (syncTrackToNotion false td st fx).map Prod.fst
        ∧ (syncTrackToNotionUpdateMode true td st fx).map Prod.snd = Except.ok st
        ∧ (syncTrackToNotionUpdateMode true td st fx).map Prod.fst =
            (syncTrackToNotionUpdateMode false td st fx).map Prod.fst) := by
  refine ⟨fun td st w => rfl, fun pid td st w => rfl, fun pid st w => rfl,
    fun td st fx hw => ?_⟩
  unfold syncTrackToNotion syncTrackToNotionUpdateMode
  cases h : resolveExistingTrack td st fx.isrcQ fx.taQ <;>
    simp [h, createTrack, updateTrack, hw, Except.map]

/-- Sample Apple Music raw track used to witness C10. -/
def c10AppleTrack : AppleRawTrack :=
  { id := "am1", type := "songs",
    attributes :=
      { name := "Ombra Mai Fu", url := some "https://music.apple.com/x", durationInMillis := some 190000,
        trackNumber := some 1, contentRating := none, artistName := some "Cecilia Bartoli",
        albumName := some "Arias", releaseDate := some "1999-05-01", recordLabel := none,
        isrc := some "ITABC9900001", composerName := some "Handel", genreNames := ["Classical"] } }

/-- Sample Apple Music non-song item (a `music-videos` entry) used to witness
C10's third conjunct. -/
def c10VideoItem : AppleRawTrack :=
  { id := "am2", type := "music-videos",
    attributes :=
      { name := "Some Video", url := none, durationInMillis := none, trackNumber := none,
        contentRating := none, artistName := none, albumName := none, releaseDate := none,
        recordLabel := none, isrc := none, composerName := none, genreNames := [] } }

/-- C10: config.js exports no `playlistTypes` key, so the Apple Music
normalizer's access `config.playlistTypes[playlistId]` throws a TypeError on
every call; consequently every Apple Music track normalization fails, a
successful Apple Music track fetch can only ever be empty, and a playlist sync
whose track fetch failed aborts with an error. -/
theorem C10_apple_normalizer_always_throws :
    (configExportNames.contains "playlistTypes" = false)
    ∧ (∀ (t : AppleRawTrack) (pid : String) (meta : Except Unit String),
        appleProcessTrackData t pid meta = Except.error JsErr.typeError)
    ∧ (∀ (raws : List AppleRawTrack) (pid : String) (meta : Except Unit String)
        (tds : List TrackData),
        appleGetPlaylistTracks raws pid meta = Except.ok tds → tds = [])
    ∧ (∀ (dry : Bool) (st : SinkSt),
        syncAppleMusicPlaylist dry
          { service := Service.appleMusic, playlistType := "Source", healthy := true,
            meta := OpOutcome.ok, fetch := Except.error () } st = Except.error ()) := by
  refine ⟨by decide, fun t pid meta => rfl, fun raws pid meta => ?_, fun dry st => rfl⟩
  induction raws with
  | nil =>
    intro tds h
    simp only [appleGetPlaylistTracks, Except.ok.injEq] at h
    exact h.symm
  | cons r rest ih =>
    intro tds h
    unfold appleGetPlaylistTracks at h
    by_cases hr : r.type = "songs"
    · simp [hr, appleProcessTrackData, configPlaylistTypes] at h
    · simp only [hr, if_neg, if_false] at h
      exact ih tds (by simpa [hr] using h)

/-- Witness for C10 at concrete inputs: a concrete songs item fails to
normalize, a fetch over a single non-song item succeeds with an empty track
list, and the apple driver propagates a fetch failure. -/
theorem C10_apple_normalizer_always_throws_witness :
    appleProcessTrackData c10AppleTrack "pl.u-123" (Except.ok "Arias") =
      Except.error JsErr.typeError
    ∧ ([] : List TrackData) = []
    ∧ syncAppleMusicPlaylist false
        { service := Service.appleMusic, playlistType := "Source", healthy := true,
          meta := OpOutcome.ok, fetch := Except.error () }
        { pages := [], nextId := 0 } = Except.error () := by
  refine ⟨C10_apple_normalizer_always_throws.2.1 c10AppleTrack "pl.u-123" (Except.ok "Arias"),
    C10_apple_normalizer_always_throws.2.2.1 [c10VideoItem] "pl.u-123" (Except.ok "Arias") []
      (by decide),
    C10_apple_normalizer_always_throws.2.2.2 false { pages := [], nextId := 0 }⟩

/-- Sample raw Spotify track with no `duration_ms`, used for C9. -/
def c9NoDurationTrack : SpotifyRawTrack :=
  { id := "sp9", name := "No Duration Song", spotifyUrl := none, duration_ms := none,
    track_number := none, explicit := false, popularity := none, artists := ["Anon"],
    album := none, isrc := none }

/-- C9 counterexample: when the source provides no duration, the Spotify
normalizer does not leave the `duration` field absent — it assigns the
explicit placeholder value `null` to it (the key is present with value
`null`, and the Duration sink property is then written as empty rather than
omitted). -/
theorem C9_duration_absent_counterexample :
    (spotifyProcessTrackData c9NoDurationTrack "pl9" (Except.ok "PL9")).duration = JsVal.null
    ∧ JsVal.null ≠ (JsVal.undef : JsVal Nat)
    ∧ lookupProp
        (buildTrackProperties (spotifyProcessTrackData c9NoDurationTrack "pl9" (Except.ok "PL9")) false)
        DURATION = some (PropValue.richText none) := by
  refine ⟨rfl, by decide, by decide⟩

/-- C9 as amended: for a truthy `duration_ms` the normalizer sets `duration`
to `Math.round(duration_ms / 1000)`, which is the value within half a second
of the millisecond count (nearest whole second, ties rounding up); when the
source provides no duration (or a zero one) the field is set to `null` — an
explicit null placeholder on the track object, not an absent field and not a
numeric placeholder. -/
theorem C9_duration_normalization :
    ∀ (track : SpotifyRawTrack) (pid : String) (meta : Except Unit String),
      (∀ ms, track.duration_ms = some ms → ms ≠ 0 →
        (spotifyProcessTrackData track pid meta).duration = JsVal.val ((ms + 500) / 1000)
        ∧ Nat.dist (1000 * ((ms + 500) / 1000)) ms ≤ 500)
      ∧ ((track.duration_ms = none ∨ track.duration_ms = some 0) →
        (spotifyProcessTrackData track pid meta).duration = JsVal.null) := by
  intro track pid meta
  constructor
  · intro ms hms hne
    constructor
    · simp [spotifyProcessTrackData, jsRoundDiv1000, hms, hne]
    · simp only [Nat.dist]
      omega
  · intro h
    rcases h with h | h <;> simp [spotifyProcessTrackData, h]

/-- Witness for C9's amended theorem: a 190250 ms track normalizes to 190 s,
within half a second of the source value, and the no-duration sample track
gets a null duration. -/
theorem C9_duration_normalization_witness :
    (spotifyProcessTrackData
      { c9NoDurationTrack with duration_ms := some 190250 } "pl9" (Except.ok "PL9")).duration =
        JsVal.val 190
    ∧ Nat.dist (1000 * 190) 190250 ≤ 500
    ∧ (spotifyProcessTrackData c9NoDurationTrack "pl9" (Except.ok "PL9")).duration = JsVal.null := by
  have h := C9_duration_normalization
    { c9NoDurationTrack with duration_ms := some 190250 } "pl9" (Except.ok "PL9")
  have h1 := h.1 190250 rfl (by decide)
  have h2 := (C9_duration_normalization c9NoDurationTrack "pl9" (Except.ok "PL9")).2 (Or.inl rfl)
  exact ⟨by simpa using h1.1, by simpa using h1.2, h2⟩

/-- C2: the resolver's order — a truthy `isrc` is looked up first by
substring containment on the stored `ISRC/UPC` value and the first hit wins
regardless of the track's title or artist; when the ISRC step is inactive or
empty it falls back to the title-contains query filtered in memory by
lowercased artist containment, returning the first match in the sink's
newest-created-first order; when neither step matches (in particular when a
title matches but its artist does not) resolution returns null. -/
theorem C2_resolver_order (st : SinkSt) (td : TrackData) :
    (∀ (s : String) (p : NPage), td.isrc = some s → s.isEmpty = false →
      (st.pages.filter (fun q => propRichTextContains q ISRC_UPC s)).head? = some p →
      resolveExistingTrack td st OpOutcome.ok OpOutcome.ok = some p)
    ∧ (∀ (a : String), td.artist = some a → td.title.isEmpty = false → a.isEmpty = false →
      (optTruthy td.isrc = false ∨
        st.pages.filter (fun q => propRichTextContains q ISRC_UPC (td.isrc.getD "")) = []) →
      resolveExistingTrack td st OpOutcome.ok OpOutcome.ok =
        (st.pages.filter (fun q => propTitleContains q TRACK_TITLE td.title)).find?
          (artistMatches a))
    ∧ (∀ (a : String), td.artist = some a → td.title.isEmpty = false → a.isEmpty = false →
      (optTruthy td.isrc = false ∨
        st.pages.filter (fun q => propRichTextContains q ISRC_UPC (td.isrc.getD "")) = []) →
      (st.pages.filter (fun q => propTitleContains q TRACK_TITLE td.title)).find?
          (artistMatches a) = none →
      resolveExistingTrack td st OpOutcome.ok OpOutcome.ok = none) := by
  have hfallback : ∀ (a : String), td.artist = some a → td.title.isEmpty = false →
      a.isEmpty = false →
      findTrackByTitleArtist td.title td.artist st OpOutcome.ok =
        (st.pages.filter (fun q => propTitleContains q TRACK_TITLE td.title)).find?
          (artistMatches a) := by
    intro a ha ht hae
    unfold findTrackByTitleArtist queryDatabase
    simp [ha, ht, hae]
  refine ⟨?_, ?_, ?_⟩
  · intro s p hs hne hh
    unfold resolveExistingTrack
    have hopt : optTruthy td.isrc = true := by simp [optTruthy, hs, hne]
    rw [hopt]
    unfold findTrackByIsrc queryDatabase
    simp only [hs, Option.getD_some, hne, Bool.false_eq_true, if_false, if_true]
    simp [hh]
  · intro a ha ht hae hstep1
    unfold resolveExistingTrack
    rcases hstep1 with hopt | hempty
    · rw [hopt]
      simp only [Bool.false_eq_true, if_false]
      exact hfallback a ha ht hae
    · by_cases hopt : optTruthy td.isrc = true
      · rw [hopt]
        unfold findTrackByIsrc queryDatabase
        rcases hoi : td.isrc with _ | s
        · rw [hoi] at hopt
          simp [optTruthy] at hopt
        · have hne : s.isEmpty = false := by
            rw [hoi] at hopt
            simpa [optTruthy] using hopt
          rw [hoi] at hempty
          simp only [hoi, Option.getD_some] at hempty ⊢
          simp only [hne, Bool.false_eq_true, if_false, if_true, hempty, List.head?_nil]
          exact hfallback a ha ht hae
      · rw [Bool.not_eq_true] at hopt
        rw [hopt]
        simp only [Bool.false_eq_true, if_false]
        exact hfallback a ha ht hae
  · intro a ha ht hae hstep1 hfind
    have h2 : resolveExistingTrack td st OpOutcome.ok OpOutcome.ok =
        (st.pages.filter (fun q => propTitleContains q TRACK_TITLE td.title)).find?
          (artistMatches a) := by
      unfold resolveExistingTrack
      rcases hstep1 with hopt | hempty
      · rw [hopt]
        simp only [Bool.false_eq_true, if_false]
        exact hfallback a ha ht hae
      · by_cases hopt : optTruthy td.isrc = true
        · rw [hopt]
          unfold findTrackByIsrc queryDatabase
          rcases hoi : td.isrc with _ | s
          · rw [hoi] at hopt
            simp [optTruthy] at hopt
          · have hne : s.isEmpty = false := by
              rw [hoi] at hopt
              simpa [optTruthy] using hopt
            rw [hoi] at hempty
            simp only [hoi, Option.getD_some] at hempty ⊢
            simp only [hne, Bool.false_eq_true, if_false, if_true, hempty, List.head?_nil]
            exact hfallback a ha ht hae
        · rw [Bool.not_eq_true] at hopt
          rw [hopt]
          simp only [Bool.false_eq_true, if_false]
          exact hfallback a ha ht hae
    rw [h2, hfind]

/-- Builder of a canonical sample track for concrete test inputs. -/
def sampleTrack (ttl : String) (artist isrc : Option String) : TrackData :=
  { source := "Spotify", sourceId := "sid-" ++ ttl, title := ttl, url := none,
    duration := JsVal.val 200, trackNumber := none, explicit := false, popularity := none,
    artist := artist, performedBy := artist, album := none, releaseDate := none,
    label := none, isrc := isrc, composer := none, genre := none, type := "Source",
    playlist := "PL", playlistType := none }

/-- Sink record with a noisy stored ISRC, for the C2 witness. -/
def c2IsrcPage : NPage :=
  { id := "c2p1",
    props := [(TRACK_TITLE, PropValue.titleVal (some "Wrong Name")),
              (ARTIST, PropValue.richText (some "Somebody Else")),
              (ISRC_UPC, PropValue.richText (some "US-Z123-99"))],
    createdTime := 7 }

/-- Sink record matching by title substring but not by artist, for the C2
witness. -/
def c2TitlePage : NPage :=
  { id := "c2p2",
    props := [(TRACK_TITLE, PropValue.titleVal (some "Great Song (Live)")),
              (ARTIST, PropValue.richText (some "The Band"))],
    createdTime := 6 }

/-- Sink state for the C2 witness. -/
def c2St : SinkSt := { pages := [c2IsrcPage, c2TitlePage], nextId := 8 }

/-- Witness for C2 at concrete inputs: a track whose ISRC is contained in a
stored value resolves to that record although title and artist differ
completely, and a track whose title matches a stored record but whose artist
does not resolves to null. -/
theorem C2_resolver_order_witness :
    resolveExistingTrack (sampleTrack "Totally Different" (some "Nobody") (some "Z123"))
      c2St OpOutcome.ok OpOutcome.ok = some c2IsrcPage
    ∧ resolveExistingTrack (sampleTrack "Great Song" (some "Another Artist") none)
      c2St OpOutcome.ok OpOutcome.ok = none := by
  constructor
  · exact (C2_resolver_order c2St _).1 "Z123" c2IsrcPage rfl (by decide) (by decide)
  · exact (C2_resolver_order c2St _).2.2 "Another Artist" rfl (by decide) (by decide)
      (Or.inl (by decide)) (by decide)

/-- Counting behavior of one part_006 driver loop iteration: every track adds
exactly one to exactly one of the four counters. -/
theorem syncPlaylistStep_counts (d : Bool) (pt : String) (it : TrackData × TrackFx)
    (r : SyncResults) (st : SinkSt) :
    ((syncPlaylistStep d pt (r, st) it).1).added + ((syncPlaylistStep d pt (r, st) it).1).updated
      + ((syncPlaylistStep d pt (r, st) it).1).skipped + ((syncPlaylistStep d pt (r, st) it).1).errors
      = r.added + r.updated + r.skipped + r.errors + 1 := by
  unfold syncPlaylistStep
  rcases h : syncTrackToNotion d { it.1 with type := pt, playlistType := some pt } st it.2
    with _ | ⟨res, st2⟩
  · simp [h]
    omega
  · cases res <;> simp [h] <;> omega

/-- Counting behavior of the whole part_006 driver loop: the four counters
always sum to the number of processed tracks. -/
theorem syncPlaylistFold_counts (d : Bool) (pt : String) :
    ∀ (items : List (TrackData × TrackFx)) (r : SyncResults) (st : SinkSt),
      ((items.foldl (syncPlaylistStep d pt) (r, st)).1).added
        + ((items.foldl (syncPlaylistStep d pt) (r, st)).1).updated
        + ((items.foldl (syncPlaylistStep d pt) (r, st)).1).skipped
        + ((items.foldl (syncPlaylistStep d pt) (r, st)).1).errors
      = r.added + r.updated + r.skipped + r.errors + items.length := by
  intro items
  induction items with
  | nil => intro r st; simp
  | cons it rest ih =>
    intro r st
    rw [List.foldl_cons]
    have hc := syncPlaylistStep_counts d pt it r st
    have hih := ih (syncPlaylistStep d pt (r, st) it).1 (syncPlaylistStep d pt (r, st) it).2
    rw [Prod.mk.eta] at hih
    simp only [List.length_cons]
    omega

/-- Five-track playlist for the C6 scenario; the third track's sink write
fails. -/
def c6Items : List (TrackData × TrackFx) :=
  [(sampleTrack "T1" (some "A1") none, okFx),
   (sampleTrack "T2" (some "A2") none, okFx),
   (sampleTrack "T3" (some "A3") none, { isrcQ := OpOutcome.ok, taQ := OpOutcome.ok, write := OpOutcome.fail }),
   (sampleTrack "T4" (some "A4") none, okFx),
   (sampleTrack "T5" (some "A5") none, okFx)]

/-- Playlist job for the C6 scenario. -/
def c6Job : PlaylistJob :=
  { service := Service.spotify, playlistType := "Source", healthy := true,
    meta := OpOutcome.ok, fetch := Except.ok c6Items }

/-- C6: a sink write failure on a single track propagates to the driver,
which counts one error for that track and continues — every track of a
fetched playlist receives exactly one outcome (the counters always sum to the
track count), and in the concrete 5-track scenario with one failing write the
result is 4 created, 1 error, with the other four tracks keeping their own
outcomes. -/
theorem C6_write_failure_isolated :
    (∀ (dryRun : Bool) (job : PlaylistJob) (st : SinkSt) (items : List (TrackData × TrackFx)),
      job.healthy = true → job.meta = OpOutcome.ok → job.fetch = Except.ok items →
      ∃ r st', syncSpotifyPlaylist dryRun job st = Except.ok (r, st')
        ∧ r.added + r.updated + r.skipped + r.errors = items.length)
    ∧ (syncSpotifyPlaylist false c6Job { pages := [], nextId := 0 }).map
        (fun x => (x.1.added, x.1.updated, x.1.skipped, x.1.errors)) =
      Except.ok (4, 0, 0, 1)
    ∧ (syncSpotifyPlaylist false c6Job { pages := [], nextId := 0 }).map
        (fun x => x.1.tracks) =
      Except.ok [("T1", SyncResult.created), ("T2", SyncResult.created),
         ("T4", SyncResult.created), ("T5", SyncResult.created)] := by
  refine ⟨?_, ?_⟩
  · intro dryRun job st items hh hm hf
    unfold syncSpotifyPlaylist
    rw [hh, hm, hf]
    refine ⟨_, _, rfl, ?_⟩
    have := syncPlaylistFold_counts dryRun job.playlistType items emptyResults st
    simpa [emptyResults] using this
  · exact ⟨by decide, by decide⟩

/-- Witness for C6's general conjunct at a concrete input: the one-track
playlist yields counters summing to one. -/
theorem C6_write_failure_isolated_witness :
    ∃ r st', syncSpotifyPlaylist false
        { service := Service.spotify, playlistType := "Source", healthy := true,
          meta := OpOutcome.ok, fetch := Except.ok [(sampleTrack "W6" (some "AW") none, okFx)] }
        { pages := [], nextId := 0 } = Except.ok (r, st')
      ∧ r.added + r.updated + r.skipped + r.errors = 1 :=
  C6_write_failure_isolated.1 false _ _ [(sampleTrack "W6" (some "AW") none, okFx)]
    rfl rfl rfl

/-- Existing sink record matching the first scenario track by ISRC; it carries
a manual `Notes` annotation that an update must not touch. -/
def c1Page1 : NPage :=
  { id := "n1",
    props := [(TRACK_TITLE, PropValue.titleVal (some "Old Title One")),
              (ARTIST, PropValue.richText (some "Old Artist One")),
              (ISRC_UPC, PropValue.richText (some "ISRC-0001")),
              (NOTES, PropValue.richText (some "keep me")),
              (REMOVED, PropValue.checkbox false)],
    createdTime := 1 }

/-- Existing sink record matching the second scenario track by ISRC. -/
def c1Page2 : NPage :=
  { id := "n2",
    props := [(TRACK_TITLE, PropValue.titleVal (some "Old Title Two")),
              (ARTIST, PropValue.richText (some "Old Artist Two")),
              (ISRC_UPC, PropValue.richText (some "ISRC-0002")),
              (REMOVED, PropValue.checkbox false)],
    createdTime := 0 }

/-- Sink state for the C1 scenario: two records already present. -/
def c1St : SinkSt := { pages := [c1Page1, c1Page2], nextId := 2 }

/-- Three-track playlist for the C1 scenario: two tracks match existing
records by ISRC, one is new. -/
def c1Items : List (TrackData × TrackFx) :=
  [(sampleTrack "New Title One" (some "Artist One") (some "ISRC-0001"), okFx),
   (sampleTrack "New Title Two" (some "Artist Two") (some "ISRC-0002"), okFx),
   (sampleTrack "Fresh Song" (some "New Artist") (some "ISRC-0003"), okFx)]

/-- Playlist job for the C1 scenario. -/
def c1Job : PlaylistJob :=
  { service := Service.spotify, playlistType := "Source", healthy := true,
    meta := OpOutcome.ok, fetch := Except.ok c1Items }

/-- C1: the two deployment-selected upsert modes.  In Update mode (the
part_000 orchestrator) applying a track against a resolved existing Record
returns `updated` and rewrites, on that Record only, exactly the keys of the
built patch — all of them automated fields — leaving every other key (in
particular every manual field) untouched and forcing `Removed = false`.  On
the 3-track scenario (two ISRC matches, one new track) the Update-mode driver
reports 1 created and 2 updated, and the Preserve-mode driver (part_006)
reports 1 created and 2 skipped. -/
theorem C1_upsert_policy_modes :
    (∀ (td : TrackData) (st : SinkSt) (fx : TrackFx) (p : NPage),
      resolveExistingTrack td st fx.isrcQ fx.taQ = some p → fx.write = OpOutcome.ok →
      ∃ st', syncTrackToNotionUpdateMode false td st fx = Except.ok (SyncResult.updated, st')
        ∧ (∀ q ∈ st.pages, q.id ≠ p.id → q ∈ st'.pages)
        ∧ (∀ q ∈ st.pages, q.id = p.id →
            { q with props := applyProps q.props (buildTrackProperties td true) } ∈ st'.pages
            ∧ (∀ k, k ∉ (buildTrackProperties td true).map Prod.fst →
                lookupProp (applyProps q.props (buildTrackProperties td true)) k =
                  lookupProp q.props k)
            ∧ (∀ k ∈ manualFieldNames,
                lookupProp (applyProps q.props (buildTrackProperties td true)) k =
                  lookupProp q.props k)
            ∧ lookupProp (applyProps q.props (buildTrackProperties td true)) REMOVED =
                some (PropValue.checkbox false))
        ∧ (buildTrackProperties td true).map Prod.fst ⊆ automatedFieldNames)
    ∧ (syncSpotifyPlaylistUpdateMode false c1Job c1St).map
        (fun x => (x.1.added, x.1.updated, x.1.errors)) = Except.ok (1, 2, 0)
    ∧ (syncSpotifyPlaylist false c1Job c1St).map
        (fun x => (x.1.added, x.1.updated, x.1.skipped, x.1.errors)) = Except.ok (1, 0, 2, 0) := by
  refine ⟨?_, by decide, by decide⟩
  intro td st fx p hres hw
  unfold syncTrackToNotionUpdateMode
  rw [hres]
  unfold updateTrack
  rw [hw]
  simp only [Bool.false_eq_true, if_false]
  refine ⟨_, rfl, ?_, ?_, ?_⟩
  · intro q hq hne
    simpa [hne] using List.mem_map_of_mem
      (fun q => if q.id = p.id then { q with props := applyProps q.props (buildTrackProperties td true) } else q) hq
  · intro q hq hid
    refine ⟨?_, ?_, ?_, ?_⟩
    · simpa [hid] using List.mem_map_of_mem
        (fun q => if q.id = p.id then { q with props := applyProps q.props (buildTrackProperties td true) } else q) hq
    · intro k hk
      exact lookupProp_applyProps_not_mem _ _ _ hk
    · intro k hk
      exact lookupProp_applyProps_not_mem _ _ _ (manual_not_in_buildTrackProperties td true k hk)
    · exact lookupProp_applyProps_buildTrackProperties_removed td true q.props
  · exact buildTrackProperties_keys_subset td true

/-- Existing sink record for the C1 witness. -/
def c1WPage : NPage :=
  { id := "w1",
    props := [(ISRC_UPC, PropValue.richText (some "ISRC-W-77")),
              (NOTES, PropValue.richText (some "manual note")),
              (REMOVED, PropValue.checkbox false)],
    createdTime := 0 }

/-- Witness for C1's general conjunct: the update-mode upsert against a
one-record sink returns `updated` with the stated frame conditions. -/
theorem C1_upsert_policy_modes_witness :
    ∃ st', syncTrackToNotionUpdateMode false (sampleTrack "W Song" (some "W Artist") (some "ISRC-W-77"))
        { pages := [c1WPage], nextId := 1 } okFx = Except.ok (SyncResult.updated, st')
      ∧ (∀ q ∈ ({ pages := [c1WPage], nextId := 1 } : SinkSt).pages, q.id ≠ c1WPage.id → q ∈ st'.pages)
      ∧ (∀ q ∈ ({ pages := [c1WPage], nextId := 1 } : SinkSt).pages, q.id = c1WPage.id →
          { q with props := applyProps q.props (buildTrackProperties (sampleTrack "W Song" (some "W Artist") (some "ISRC-W-77")) true) } ∈ st'.pages
          ∧ (∀ k, k ∉ (buildTrackProperties (sampleTrack "W Song" (some "W Artist") (some "ISRC-W-77")) true).map Prod.fst →
              lookupProp (applyProps q.props (buildTrackProperties (sampleTrack "W Song" (some "W Artist") (some "ISRC-W-77")) true)) k =
                lookupProp q.props k)
          ∧ (∀ k ∈ manualFieldNames,
              lookupProp (applyProps q.props (buildTrackProperties (sampleTrack "W Song" (some "W Artist") (some "ISRC-W-77")) true)) k =
                lookupProp q.props k)
          ∧ lookupProp (applyProps q.props (buildTrackProperties (sampleTrack "W Song" (some "W Artist") (some "ISRC-W-77")) true)) REMOVED =
              some (PropValue.checkbox false))
      ∧ (buildTrackProperties (sampleTrack "W Song" (some "W Artist") (some "ISRC-W-77")) true).map Prod.fst ⊆ automatedFieldNames :=
  C1_upsert_policy_modes.1 (sampleTrack "W Song" (some "W Artist") (some "ISRC-W-77"))
    { pages := [c1WPage], nextId := 1 } okFx c1WPage (by decide) rfl

/-- Raw Spotify track with an empty `artists` array (e.g. a local file track),
used for C4. -/
def c4ArtistlessRaw : SpotifyRawTrack :=
  { id := "sp-local", name := "Local Track", spotifyUrl := none, duration_ms := some 123456,
    track_number := none, explicit := false, popularity := none, artists := [],
    album := none, isrc := none }

/-- The normalized artist-less track of the C4 failing input. -/
def c4Track : TrackData := spotifyProcessTrackData c4ArtistlessRaw "plX" (Except.ok "Crate")

/-- Playlist job of the C4 failing input: one healthy Spotify playlist whose
only track is the artist-less one, with every API call succeeding. -/
def c4Job : PlaylistJob :=
  { service := Service.spotify, playlistType := "Source", healthy := true,
    meta := OpOutcome.ok, fetch := Except.ok [(c4Track, okFx)] }

/-- Cleanup inputs of the C4 failing input: the snapshot query succeeds, the
cleanup re-fetch returns the same artist-less track, and no removal write
fails. -/
def c4CleanupFx : CleanupFx :=
  { dbQuery := OpOutcome.ok, liveFetches := [Except.ok [c4Track]],
    markFail := fun _ => false }

/-- C4 failing input, evaluated: with no API failure at all, a playlist whose
only track has no artist syncs fine, but the cleanup reconciler's
live-identity construction evaluates `track.artist.toLowerCase()` on
`undefined`, throws a TypeError, and `cleanupRemovedTracks` and `fullSync`
rethrow it — the top-level run raises instead of returning a summary. -/
theorem C4_artistless_track_aborts_fullSync :
    c4Track.artist = none
    ∧ buildLiveIds [c4Track] = Except.error JsErr.typeError
    ∧ fullSync false [c4Job] c4CleanupFx { pages := [], nextId := 0 } = Except.error () := by
  refine ⟨rfl, rfl, by decide⟩

/- Helper lemmas for the cleanup reconciler (C3). -/

/-- Marking decision of one cleanup iteration, as the loop computes it: the
record is not manually added and its identity is not live. -/
def shouldMark (ids : List String) (p : NPage) : Bool :=
  !isManualSource p && !trackExistsLive ids p

/-- Effect of a successful (non-dry-run) removal write on one page. -/
def setRemovedPage (q : NPage) : NPage :=
  { q with props := setProp q.props REMOVED (PropValue.checkbox true) }

/-- Marking a page does not change its id. -/
theorem setRemovedPage_id (q : NPage) : (setRemovedPage q).id = q.id := rfl

/-- Marking a page twice is the same as marking it once. -/
theorem setRemovedPage_idem (q : NPage) :
    setRemovedPage (setRemovedPage q) = setRemovedPage q := by
  simp [setRemovedPage, setProp_setProp_self]

/-- Characterization of the cleanup loop's effect on the sink: a page ends up
marked exactly when some snapshot record that should be marked (and whose
write does not fail) carries its id; every other page is untouched. -/
theorem cleanup_fold_pages (ids : List String) (mf : String → Bool) :
    ∀ (ps : List NPage) (res : CleanupResults) (st : SinkSt),
      ((ps.foldl (cleanupStep false ids mf) (res, st)).2).pages =
        st.pages.map (fun q =>
          if ps.any (fun pr => shouldMark ids pr && !mf pr.id && pr.id == q.id)
          then setRemovedPage q else q) := by
  intro ps
  induction ps with
  | nil =>
    intro res st
    simp
  | cons pr ps ih =>
    intro res st
    rw [List.foldl_cons]
    by_cases hman : isManualSource pr = true
    · have hstep : cleanupStep false ids mf (res, st) pr = (res, st) := by
        simp [cleanupStep, hman]
      rw [hstep, ih]
      refine List.map_congr_left (fun q hq => ?_)
      have : shouldMark ids pr = false := by simp [shouldMark, hman]
      simp [List.any_cons, this]
    · by_cases hex : trackExistsLive ids pr = true
      · have hstep : cleanupStep false ids mf (res, st) pr = (res, st) := by
          simp [cleanupStep, hman, hex]
        rw [hstep, ih]
        refine List.map_congr_left (fun q hq => ?_)
        have : shouldMark ids pr = false := by simp [shouldMark, hex]
        simp [List.any_cons, this]
      · by_cases hmf : mf pr.id = true
        · have hstep : cleanupStep false ids mf (res, st) pr =
              ({ res with errors := res.errors + 1 }, st) := by
            simp [cleanupStep, hman, hex, hmf, markTrackRemoved]
          rw [hstep, ih]
          refine List.map_congr_left (fun q hq => ?_)
          simp [List.any_cons, hmf]
        · have hstep : cleanupStep false ids mf (res, st) pr =
              ({ res with marked := res.marked + 1 },
               { st with pages := st.pages.map (fun q =>
                   if q.id = pr.id then setRemovedPage q else q) }) := by
            simp [cleanupStep, hman, hex, hmf, markTrackRemoved, setRemovedPage]
          rw [hstep, ih]
          simp only [List.map_map]
          refine List.map_congr_left (fun q hq => ?_)
          by_cases hqid : q.id = pr.id
          · have hsm : shouldMark ids pr = true := by simp [shouldMark, hman, hex]
            have hbe : (pr.id == q.id) = true := by simp [hqid]
            simp only [Function.comp, hqid, if_true]
            have hany : ∀ b : NPage, b.id = q.id →
                (ps.any (fun x => shouldMark ids x && !mf x.id && x.id == b.id)) =
                  (ps.any (fun x => shouldMark ids x && !mf x.id && x.id == q.id)) := by
              intro b hb
              simp [hb]
            rw [hany (setRemovedPage q) (setRemovedPage_id q)]
            by_cases hrest : ps.any (fun x => shouldMark ids x && !mf x.id && x.id == q.id) = true
            · simp [hrest, List.any_cons, hsm, hmf, hbe, setRemovedPage_idem]
            · rw [Bool.not_eq_true] at hrest
              simp [hrest, List.any_cons, hsm, hmf, hbe]
          · have hbe : (pr.id == q.id) = false := by
              simp [(Ne.symm hqid)]
            simp only [Function.comp, hqid, if_false]
            simp [List.any_cons, hbe]

/-- In a list of pages with pairwise distinct ids, searching by a member's id
finds exactly that member. -/
theorem find?_id_of_nodup (l : List NPage) (p : NPage) (hp : p ∈ l)
    (hnd : (l.map NPage.id).Nodup) : l.find? (fun q => q.id == p.id) = some p := by
  induction l with
  | nil => cases hp
  | cons x xs ih =>
    rcases List.mem_cons.mp hp with hpx | hpt
    · subst hpx
      simp [List.find?_cons]
    · have hsplit : x.id ∉ xs.map NPage.id ∧ (xs.map NPage.id).Nodup := by
        rw [List.map_cons, List.nodup_cons] at hnd
        exact hnd
      have hxne : (x.id == p.id) = false := by
        by_contra hbe
        rw [Bool.not_eq_false, beq_iff_eq] at hbe
        exact hsplit.1 (hbe ▸ List.mem_map_of_mem NPage.id hpt)
      rw [List.find?_cons, hxne]
      exact ih hpt hsplit.2

/-- C3: cleanup policy per examined non-removed Record — a Record whose isrc
or lowercased `title:artist` composite is in the live-identity set is never
marked removed; a Record with neither key in the set is marked `removed=true`
by a sink write, unless its `Source` field carries one of the two
manual-entry exemption tags, in which case it is left entirely untouched.
The second conjunct states how the live set is built: every live track
contributes its isrc (when truthy) and its lowercased `title:artist`
composite. -/
theorem C3_cleanup_policy :
    (∀ (st : SinkSt) (fx : CleanupFx) (ids : List String) (res : CleanupResults)
        (st' : SinkSt) (p : NPage),
      fx.dbQuery = OpOutcome.ok →
      buildLiveIds (fx.liveFetches.foldl
        (fun acc f => match f with | Except.error _ => acc | Except.ok ts => acc ++ ts) []) =
        Except.ok ids →
      cleanupRemovedTracks false st fx = Except.ok (res, st') →
      (st.pages.map NPage.id).Nodup →
      p ∈ st.pages → getCheckbox p REMOVED = false →
      (isManualSource p = true → st'.pages.find? (fun q => q.id == p.id) = some p)
      ∧ (trackExistsLive ids p = true → st'.pages.find? (fun q => q.id == p.id) = some p)
      ∧ (isManualSource p = false → trackExistsLive ids p = false →
          fx.markFail p.id = false →
          (st'.pages.find? (fun q => q.id == p.id)).map (fun q => getCheckbox q REMOVED) =
            some true))
    ∧ (∀ (tracks : List TrackData) (ids : List String),
        buildLiveIds tracks = Except.ok ids →
        ∀ t ∈ tracks, (optTruthy t.isrc = true → t.isrc.getD "" ∈ ids)
          ∧ (∀ a, t.artist = some a → (jsToLower t.title ++ ":" ++ jsToLower a) ∈ ids)) := by
  constructor
  · intro st fx ids res st' p hdb hlive hrun hnd hp hrem
    unfold cleanupRemovedTracks at hrun
    rw [hdb] at hrun
    simp only [queryDatabase] at hrun
    rw [hlive] at hrun
    simp only [Except.ok.injEq] at hrun
    have hpages : st'.pages =
        st.pages.map (fun q =>
          if (st.pages.filter (fun pr => !getCheckbox pr REMOVED)).any
              (fun pr => shouldMark ids pr && !fx.markFail pr.id && pr.id == q.id)
          then setRemovedPage q else q) := by
      have h2 := congrArg (fun z => z.2.pages) hrun
      simp only at h2
      rw [cleanup_fold_pages] at h2
      exact h2.symm
    have hcomp : ((fun q : NPage => q.id == p.id) ∘ (fun q =>
        if (st.pages.filter (fun pr => !getCheckbox pr REMOVED)).any
            (fun pr => shouldMark ids pr && !fx.markFail pr.id && pr.id == q.id)
        then setRemovedPage q else q)) = (fun q : NPage => q.id == p.id) := by
      funext q
      simp only [Function.comp]
      split <;> rfl
    have hfind : st'.pages.find? (fun q => q.id == p.id) =
        some (if (st.pages.filter (fun pr => !getCheckbox pr REMOVED)).any
            (fun pr => shouldMark ids pr && !fx.markFail pr.id && pr.id == p.id)
          then setRemovedPage p else p) := by
      rw [hpages, List.find?_map, hcomp, find?_id_of_nodup st.pages p hp hnd]
      rfl
    have hcond_false : shouldMark ids p = false →
        (st.pages.filter (fun pr => !getCheckbox pr REMOVED)).any
          (fun pr => shouldMark ids pr && !fx.markFail pr.id && pr.id == p.id) = false := by
      intro hsm
      by_contra hne
      rw [Bool.not_eq_false, List.any_eq_true] at hne
      obtain ⟨pr, hprmem, hpr⟩ := hne
      rw [Bool.and_assoc, Bool.and_eq_true, Bool.and_eq_true] at hpr
      have hid : pr.id = p.id := beq_iff_eq.mp hpr.2.2
      have hpr' : pr ∈ st.pages := (List.mem_filter.mp hprmem).1
      have : pr = p := List.inj_on_of_nodup_map hnd hpr' hp hid
      rw [this, hsm] at hpr
      exact Bool.false_ne_true hpr.1
    refine ⟨?_, ?_, ?_⟩
    · intro hman
      have := hcond_false (by simp [shouldMark, hman])
      rw [hfind, this]
      simp
    · intro hex
      have := hcond_false (by simp [shouldMark, hex])
      rw [hfind, this]
      simp
    · intro hman hex hmf
      have hcond : (st.pages.filter (fun pr => !getCheckbox pr REMOVED)).any
          (fun pr => shouldMark ids pr && !fx.markFail pr.id && pr.id == p.id) = true := by
        rw [List.any_eq_true]
        exact ⟨p, List.mem_filter.mpr ⟨hp, by simp [hrem]⟩,
          by simp [shouldMark, hman, hex, hmf]⟩
      rw [hfind, hcond]
      simp only [if_true, Option.map_some]
      simp [getCheckbox, setRemovedPage, lookupProp_setProp_self]
  · intro tracks
    induction tracks with
    | nil =>
      intro ids h t ht
      cases ht
    | cons t ts ih =>
      intro ids h t' ht'
      unfold buildLiveIds at h
      rcases hl : liveIdsOfTrack t with e | lids
      · rw [hl] at h
        simp at h
      · rw [hl] at h
        rcases hr : buildLiveIds ts with e | rest
        · rw [hr] at h
          simp at h
        · rw [hr] at h
          simp only [Except.ok.injEq] at h
          subst h
          rcases List.mem_cons.mp ht' with h1 | h2
          · subst h1
            constructor
            · intro htr
              unfold liveIdsOfTrack at hl
              rcases ha : t'.artist with _ | a
              · rw [ha] at hl
                simp at hl
              · rw [ha] at hl
                simp only [Except.ok.injEq] at hl
                subst hl
                rw [htr]
                simp
            · intro a ha2
              unfold liveIdsOfTrack at hl
              rw [ha2] at hl
              simp only [Except.ok.injEq] at hl
              subst hl
              simp
          · have hrec := ih rest hr t' h2
            exact ⟨fun htr => List.mem_append_right _ (hrec.1 htr),
              fun a ha2 => List.mem_append_right _ (hrec.2 a ha2)⟩

/-- Manually added record (Source `Link Only`) for the C3 witness. -/
def c3ManualPage : NPage :=
  { id := "m1",
    props := [(TRACK_TITLE, PropValue.titleVal (some "Hand Entered")),
              (ARTIST, PropValue.richText (some "Someone")),
              (SOURCE_FIELD, PropValue.selectVal (some "Link Only")),
              (REMOVED, PropValue.checkbox false)],
    createdTime := 2 }

/-- Record whose ISRC is still live, for the C3 witness. -/
def c3LivePage : NPage :=
  { id := "l1",
    props := [(TRACK_TITLE, PropValue.titleVal (some "Live One")),
              (ARTIST, PropValue.richText (some "The Keeper")),
              (ISRC_UPC, PropValue.richText (some "ISRC-L1")),
              (REMOVED, PropValue.checkbox false)],
    createdTime := 1 }

/-- Stale record (no longer in any playlist), for the C3 witness. -/
def c3StalePage : NPage :=
  { id := "s1",
    props := [(TRACK_TITLE, PropValue.titleVal (some "Gone Song")),
              (ARTIST, PropValue.richText (some "Left Band")),
              (REMOVED, PropValue.checkbox false)],
    createdTime := 0 }

/-- Sink state for the C3 witness. -/
def c3St : SinkSt := { pages := [c3ManualPage, c3LivePage, c3StalePage], nextId := 3 }

/-- Cleanup inputs for the C3 witness. -/
def c3Fx : CleanupFx :=
  { dbQuery := OpOutcome.ok,
    liveFetches := [Except.ok [sampleTrack "Live One" (some "The Keeper") (some "ISRC-L1")]],
    markFail := fun _ => false }

/-- Live-identity set of the C3 witness run. -/
def c3Ids : List String := ["ISRC-L1", "live one:the keeper"]

/-- Sink state after the C3 witness cleanup run: only the stale record is
marked removed. -/
def c3StOut : SinkSt :=
  { pages := [c3ManualPage, c3LivePage,
              { id := "s1",
                props := [(TRACK_TITLE, PropValue.titleVal (some "Gone Song")),
                          (ARTIST, PropValue.richText (some "Left Band")),
                          (REMOVED, PropValue.checkbox true)],
                createdTime := 0 }],
    nextId := 3 }

/-- Witness for C3 at concrete inputs: the manually added record and the
still-live record come out of cleanup untouched, while the stale record ends
up with `Removed = true`. -/
theorem C3_cleanup_policy_witness :
    c3StOut.pages.find? (fun q => q.id == c3ManualPage.id) = some c3ManualPage
    ∧ c3StOut.pages.find? (fun q => q.id == c3LivePage.id) = some c3LivePage
    ∧ (c3StOut.pages.find? (fun q => q.id == c3StalePage.id)).map
        (fun q => getCheckbox q REMOVED) = some true := by
  have hman := C3_cleanup_policy.1 c3St c3Fx c3Ids { marked := 1, errors := 0 } c3StOut
    c3ManualPage rfl (by decide) (by decide) (by decide) (by decide) (by decide)
  have hlive := C3_cleanup_policy.1 c3St c3Fx c3Ids { marked := 1, errors := 0 } c3StOut
    c3LivePage rfl (by decide) (by decide) (by decide) (by decide) (by decide)
  have hstale := C3_cleanup_policy.1 c3St c3Fx c3Ids { marked := 1, errors := 0 } c3StOut
    c3StalePage rfl (by decide) (by decide) (by decide) (by decide) (by decide)
  exact ⟨hman.1 (by decide), hlive.2.1 (by decide),
    hstale.2.2 (by decide) (by decide) rfl⟩

/- Helper lemmas for Preserve-mode idempotence (C5). -/

/-- Lookup distributes over property-list concatenation. -/
theorem lookupProp_append (l₁ l₂ : Props) (k : String) :
    lookupProp (l₁ ++ l₂) k =
      match lookupProp l₁ k with
      | some v => some v
      | none => lookupProp l₂ k := by
  induction l₁ with
  | nil => simp [lookupProp]
  | cons hd tl ih =>
    by_cases h : hd.1 = k
    · simp [lookupProp, h]
    · simp [lookupProp, h, ih]

/-- Lookup of a different key in a conditional singleton segment finds
nothing. -/
theorem lookupProp_ite_singleton_ne {c : Prop} [Decidable c] (k' : String)
    (v : PropValue) (k : String) (h : ¬k' = k) :
    lookupProp (if c then [(k', v)] else []) k = none := by
  split <;> simp [lookupProp, h]

/-- Lookup of a different key in a singleton property list finds nothing. -/
theorem lookupProp_singleton_ne (k' : String) (v : PropValue) (k : String)
    (h : ¬k' = k) : lookupProp [(k', v)] k = none := by
  simp [lookupProp, h]

set_option maxHeartbeats 1600000 in
/-- The patch built from a track with a truthy isrc stores that isrc under
`ISRC/UPC`. -/
theorem buildTrackProperties_isrc (td : TrackData) (b : Bool)
    (h : optTruthy td.isrc = true) :
    lookupProp (buildTrackProperties td b) ISRC_UPC =
      some (PropValue.richText td.isrc) := by
  unfold buildTrackProperties
  rcases htn : td.trackNumber with _ | n <;>
  rcases hrd : td.releaseDate with _ | rd <;>
  rcases hd : td.duration with _ | _ | secs <;>
  · simp [htn, hrd, hd, h, lookupProp_append, lookupProp_ite_singleton_ne,
      lookupProp_singleton_ne, lookupProp, TRACK_TITLE, TRACK_NUMBER, ALBUM, ARTIST,
      PERFORMED_BY, RELEASE_DATE, DURATION, ISRC_UPC]

/-- The patch built from a track with a nonempty title stores that title under
`Track Title`. -/
theorem buildTrackProperties_title (td : TrackData) (b : Bool)
    (h : td.title.isEmpty = false) :
    lookupProp (buildTrackProperties td b) TRACK_TITLE =
      some (PropValue.titleVal (some td.title)) := by
  unfold buildTrackProperties
  simp [h, lookupProp_append, lookupProp]

set_option maxHeartbeats 1600000 in
/-- The patch built from a track with a truthy artist stores that artist under
`Artist`. -/
theorem buildTrackProperties_artist (td : TrackData) (b : Bool)
    (h : optTruthy td.artist = true) :
    lookupProp (buildTrackProperties td b) ARTIST =
      some (PropValue.richText td.artist) := by
  unfold buildTrackProperties
  rcases htn : td.trackNumber with _ | n <;>
  · simp [htn, h, lookupProp_append, lookupProp_ite_singleton_ne,
      lookupProp_singleton_ne, lookupProp, TRACK_TITLE, TRACK_NUMBER, ALBUM, ARTIST]

/-- ISRC-step hit predicate of the resolver against one page. -/
def isrcHit (td : TrackData) (q : NPage) : Bool :=
  propRichTextContains q ISRC_UPC (td.isrc.getD "")

/-- Fallback-step hit predicate of the resolver against one page. -/
def taHit (td : TrackData) (q : NPage) : Bool :=
  propTitleContains q TRACK_TITLE td.title && artistMatches (td.artist.getD "") q

/-- A nonempty filtered list has a head and its head is a member. -/
theorem filter_head?_isSome_iff {α : Type} (p : α → Bool) (l : List α) :
    ((l.filter p).head?).isSome = true ↔ ∃ x ∈ l, p x = true := by
  constructor
  · intro h
    rcases Option.isSome_iff_exists.mp h with ⟨x, hx⟩
    have hmem := List.mem_of_mem_head? (by rw [hx]; exact rfl)
    exact ⟨x, (List.mem_filter.mp hmem).1, (List.mem_filter.mp hmem).2⟩
  · intro ⟨x, hx, hp⟩
    rw [Option.isSome_iff_ne_none]
    intro hnone
    rw [List.head?_eq_none_iff, List.filter_eq_nil_iff] at hnone
    exact hnone x hx hp

/-- Characterization of when the resolver finds some record, for a sink query
that succeeds: either the ISRC step is active and some page's stored ISRC
contains the track's, or the fallback guards pass and some page matches on
title and lowercased artist containment. -/
theorem resolveExistingTrack_isSome_iff (td : TrackData) (st : SinkSt) :
    (resolveExistingTrack td st OpOutcome.ok OpOutcome.ok).isSome = true ↔
      ((optTruthy td.isrc = true ∧ ∃ q ∈ st.pages, isrcHit td q = true)
      ∨ (∃ a, td.artist = some a ∧ td.title.isEmpty = false ∧ a.isEmpty = false
          ∧ ∃ q ∈ st.pages,
            (propTitleContains q TRACK_TITLE td.title && artistMatches a q) = true)) := by
  unfold resolveExistingTrack
  have hsplit : ∀ (o f : Option NPage),
      (match o with | some p => some p | none => f).isSome = (o.isSome || f.isSome) := by
    intro o f
    cases o <;> simp
  rw [hsplit, Bool.or_eq_true _ _]
  apply or_congr
  · by_cases hopt : optTruthy td.isrc = true
    · simp only [hopt, if_true, true_and]
      rcases hoi : td.isrc with _ | s
      · rw [hoi] at hopt
        simp [optTruthy] at hopt
      · have hne : s.isEmpty = false := by
          rw [hoi] at hopt
          simpa [optTruthy] using hopt
        unfold findTrackByIsrc queryDatabase
        simp only [hoi, Option.getD_some, hne, Bool.false_eq_true, if_false]
        rw [filter_head?_isSome_iff]
        unfold isrcHit
        rw [hoi]
        simp
    · rw [Bool.not_eq_true] at hopt
      simp [hopt]
  · unfold findTrackByTitleArtist queryDatabase
    rcases ha : td.artist with _ | a
    · simp
    · by_cases hg : (td.title.isEmpty || a.isEmpty) = true
      · simp only [hg, if_true]
        constructor
        · intro h
          simp at h
        · intro ⟨a', ha', ht', hae', _⟩
          rw [Option.some.injEq] at ha'
          subst ha'
          rcases (Bool.or_eq_true _ _).mp hg with h | h
          · rw [ht'] at h
            exact absurd h (by simp)
          · rw [hae'] at h
            exact absurd h (by simp)
      · have hg' := hg
        rw [Bool.or_eq_true _ _, not_or, Bool.not_eq_true, Bool.not_eq_true] at hg'
        simp only [hg, Bool.false_eq_true, if_false]
        constructor
        · intro h
          rcases Option.isSome_iff_exists.mp h with ⟨q, hq⟩
          have hqm := List.find?_some hq
          have hqmem := List.mem_filter.mp (List.mem_of_find?_eq_some hq)
          exact ⟨a, rfl, hg'.1, hg'.2, q, hqmem.1,
            by rw [Bool.and_eq_true]; exact ⟨hqmem.2, hqm⟩⟩
        · intro ⟨a', ha', ht', hae', q, hqmem, hhit⟩
          rw [Option.some.injEq] at ha'
          subst ha'
          rw [Bool.and_eq_true] at hhit
          rw [Option.isSome_iff_ne_none]
          intro hnone
          rw [List.find?_eq_none] at hnone
          exact absurd hhit.2 (by
            simpa using hnone q (List.mem_filter.mpr ⟨hqmem, hhit.1⟩))

/-- Resolvability of a track against the sink (with succeeding queries). -/
def resolvesIn (td : TrackData) (st : SinkSt) : Prop :=
  (resolveExistingTrack td st OpOutcome.ok OpOutcome.ok).isSome = true

/-- Resolvability is monotone under adding pages to the sink. -/
theorem resolvesIn_mono (td : TrackData) (st st' : SinkSt) (l : List NPage)
    (h : st'.pages = l ++ st.pages) : resolvesIn td st → resolvesIn td st' := by
  intro hr
  rw [resolvesIn, resolveExistingTrack_isSome_iff] at hr ⊢
  rcases hr with ⟨hg, q, hq, hhit⟩ | ⟨a, ha, ht, hae, q, hq, hhit⟩
  · exact Or.inl ⟨hg, q, by rw [h]; exact List.mem_append_right l hq, hhit⟩
  · exact Or.inr ⟨a, ha, ht, hae, q, by rw [h]; exact List.mem_append_right l hq, hhit⟩

/-- A successful `syncTrackToNotion` only ever prepends pages to the sink. -/
theorem syncTrackToNotion_extends (d : Bool) (td : TrackData) (st : SinkSt) (fx : TrackFx)
    (res : SyncResult) (st' : SinkSt) (h : syncTrackToNotion d td st fx = Except.ok (res, st')) :
    ∃ l, st'.pages = l ++ st.pages := by
  unfold syncTrackToNotion at h
  rcases hr : resolveExistingTrack td st fx.isrcQ fx.taQ with _ | p
  · rw [hr] at h
    unfold createTrack at h
    by_cases hd : d = true
    · rw [if_pos hd] at h
      simp only [Except.ok.injEq, Prod.mk.injEq] at h
      exact ⟨[], by rw [← h.2]; rfl⟩
    · rw [if_neg hd] at h
      rcases hw : fx.write with _ | _
      · rw [hw] at h
        simp only [Except.ok.injEq, Prod.mk.injEq] at h
        exact ⟨[{ id := "page-" ++ toString st.nextId, props := buildTrackProperties td false,
                  createdTime := st.nextId }], by rw [← h.2]; rfl⟩
      · rw [hw] at h
        cases h
  · rw [hr] at h
    simp only [Except.ok.injEq, Prod.mk.injEq] at h
    exact ⟨[], by rw [← h.2]; rfl⟩

/-- One part_006 driver iteration only ever prepends pages to the sink. -/
theorem syncPlaylistStep_extends (d : Bool) (pt : String) (acc : SyncResults × SinkSt)
    (it : TrackData × TrackFx) :
    ∃ l, ((syncPlaylistStep d pt acc it).2).pages = l ++ (acc.2).pages := by
  unfold syncPlaylistStep
  rcases h : syncTrackToNotion d { it.1 with type := pt, playlistType := some pt } acc.2 it.2
    with _ | ⟨res, st'⟩
  · exact ⟨[], by simp [h]⟩
  · have := syncTrackToNotion_extends d _ acc.2 it.2 res st' h
    rcases this with ⟨l, hl⟩
    refine ⟨l, ?_⟩
    simp only [h]
    cases res <;> simpa using hl

/-- The whole part_006 driver loop only ever prepends pages to the sink. -/
theorem syncPlaylistFold_extends (d : Bool) (pt : String) :
    ∀ (items : List (TrackData × TrackFx)) (acc : SyncResults × SinkSt),
      ∃ l, ((items.foldl (syncPlaylistStep d pt) acc).2).pages = l ++ (acc.2).pages := by
  intro items
  induction items with
  | nil => exact fun acc => ⟨[], rfl⟩
  | cons it rest ih =>
    intro acc
    rw [List.foldl_cons]
    rcases ih (syncPlaylistStep d pt acc it) with ⟨l2, hl2⟩
    rcases syncPlaylistStep_extends d pt acc it with ⟨l1, hl1⟩
    exact ⟨l2 ++ l1, by rw [hl2, hl1, List.append_assoc]⟩

/-- A track with a truthy isrc resolves against its own freshly created page. -/
theorem created_page_isrcHit (td : TrackData) (pid : String) (ct : Nat)
    (h : optTruthy td.isrc = true) :
    isrcHit td { id := pid, props := buildTrackProperties td false, createdTime := ct } = true := by
  unfold isrcHit propRichTextContains getRichTextContent
  simp only [buildTrackProperties_isrc td false h]
  rcases hoi : td.isrc with _ | s
  · rw [hoi] at h
    simp [optTruthy] at h
  · simp [strContains_refl]

/-- A track with a nonempty title and nonempty artist passes the fallback
match against its own freshly created page. -/
theorem created_page_taHit (td : TrackData) (pid : String) (ct : Nat)
    (ht : td.title.isEmpty = false) (a : String) (haa : td.artist = some a)
    (hae : a.isEmpty = false) :
    (propTitleContains { id := pid, props := buildTrackProperties td false, createdTime := ct }
        TRACK_TITLE td.title
      && artistMatches a { id := pid, props := buildTrackProperties td false, createdTime := ct })
      = true := by
  have ha : optTruthy td.artist = true := by
    rw [haa]
    simp [optTruthy, hae]
  rw [Bool.and_eq_true]
  constructor
  · unfold propTitleContains getTitleContent
    simp only [buildTrackProperties_title td false ht]
    simp [strContains_refl]
  · unfold artistMatches getRichTextContent
    simp only [buildTrackProperties_artist td false ha]
    rw [haa]
    simp [hae, strContains_refl]

/-- A track is re-findable after creation when it has a truthy isrc, or a
nonempty title together with a truthy artist. -/
def goodTrack (td : TrackData) : Bool :=
  optTruthy td.isrc || (!td.title.isEmpty && optTruthy td.artist)

/-- After one Preserve-mode driver iteration with succeeding calls, a good
track resolves against the resulting sink. -/
theorem syncPlaylistStep_resolvable (pt : String) (td0 : TrackData) (r : SyncResults)
    (st : SinkSt) (hg : goodTrack td0 = true) :
    resolvesIn { td0 with type := pt, playlistType := some pt }
      ((syncPlaylistStep false pt (r, st) (td0, okFx)).2) := by
  simp only [syncPlaylistStep]
  rcases hres : resolveExistingTrack { td0 with type := pt, playlistType := some pt } st
      OpOutcome.ok OpOutcome.ok with _ | p
  · have hsync : syncTrackToNotion false { td0 with type := pt, playlistType := some pt } st okFx
        = Except.ok (SyncResult.created,
            { pages := { id := "page-" ++ toString st.nextId,
                         props := buildTrackProperties { td0 with type := pt, playlistType := some pt } false,
                         createdTime := st.nextId } :: st.pages,
              nextId := st.nextId + 1 }) := by
      unfold syncTrackToNotion createTrack
      rw [show resolveExistingTrack { td0 with type := pt, playlistType := some pt } st
          okFx.isrcQ okFx.taQ = none from hres]
      rfl
    rw [hsync]
    simp only
    rw [resolvesIn, resolveExistingTrack_isSome_iff]
    rcases (Bool.or_eq_true _ _).mp hg with hisrc | hta
    · refine Or.inl ⟨hisrc, _, List.mem_cons_self _ _, ?_⟩
      exact created_page_isrcHit { td0 with type := pt, playlistType := some pt } _ _ hisrc
    · rw [Bool.and_eq_true] at hta
      have ht : td0.title.isEmpty = false := by
        rcases h' : td0.title.isEmpty
        · rfl
        · rw [h'] at hta
          simpa using hta.1
      obtain ⟨a, ha, hae⟩ : ∃ a, td0.artist = some a ∧ a.isEmpty = false := by
        rcases h2 : td0.artist with _ | a
        · rw [h2] at hta
          simp [optTruthy] at hta
        · refine ⟨a, rfl, ?_⟩
          have h3 := hta.2
          rw [h2] at h3
          simpa [optTruthy] using h3
      refine Or.inr ⟨a, ha, ht, hae, _, List.mem_cons_self _ _, ?_⟩
      exact created_page_taHit { td0 with type := pt, playlistType := some pt } _ _ ht a ha hae
  · have hsync : syncTrackToNotion false { td0 with type := pt, playlistType := some pt } st okFx
        = Except.ok (SyncResult.skipped, st) := by
      unfold syncTrackToNotion
      rw [show resolveExistingTrack { td0 with type := pt, playlistType := some pt } st
          okFx.isrcQ okFx.taQ = some p from hres]
    rw [hsync]
    simp only
    rw [resolvesIn]
    rw [hres]
    rfl

/-- After a full Preserve-mode driver run with succeeding calls, every good
track of the playlist resolves against the final sink. -/
theorem syncRun_resolvable (pt : String) :
    ∀ (items : List TrackData) (r : SyncResults) (st : SinkSt),
      (∀ td ∈ items, goodTrack td = true) →
      ∀ td ∈ items,
        resolvesIn { td with type := pt, playlistType := some pt }
          (((items.map (fun td => (td, okFx))).foldl (syncPlaylistStep false pt) (r, st)).2) := by
  intro items
  induction items with
  | nil =>
    intro r st h td htd
    cases htd
  | cons td0 ts ih =>
    intro r st hgood td htd
    rw [List.map_cons, List.foldl_cons]
    rcases List.mem_cons.mp htd with h1 | h2
    · subst h1
      rcases syncPlaylistFold_extends false pt (ts.map (fun td => (td, okFx)))
        (syncPlaylistStep false pt (r, st) (td, okFx)) with ⟨l, hl⟩
      exact resolvesIn_mono _ _ _ l hl
        (syncPlaylistStep_resolvable pt td r st (hgood td (List.mem_cons_self _ _)))
    · have := ih (syncPlaylistStep false pt (r, st) (td0, okFx)).1
        (syncPlaylistStep false pt (r, st) (td0, okFx)).2
        (fun t ht => hgood t (List.mem_cons_of_mem _ ht)) td h2
      rwa [Prod.mk.eta] at this

/-- A Preserve-mode driver run over tracks that all resolve leaves the sink
unchanged, creates nothing, and skips every track. -/
theorem syncRunAllResolved (pt : String) :
    ∀ (items : List TrackData) (r : SyncResults) (st : SinkSt),
      (∀ td ∈ items, resolvesIn { td with type := pt, playlistType := some pt } st) →
      ((items.map (fun td => (td, okFx))).foldl (syncPlaylistStep false pt) (r, st)).2 = st
      ∧ (((items.map (fun td => (td, okFx))).foldl (syncPlaylistStep false pt) (r, st)).1).added
          = r.added
      ∧ (((items.map (fun td => (td, okFx))).foldl (syncPlaylistStep false pt) (r, st)).1).skipped
          = r.skipped + items.length := by
  intro items
  induction items with
  | nil =>
    intro r st h
    exact ⟨rfl, rfl, rfl⟩
  | cons td0 ts ih =>
    intro r st hres
    have h0 := hres td0 (List.mem_cons_self _ _)
    rw [resolvesIn] at h0
    rcases Option.isSome_iff_exists.mp h0 with ⟨p, hp⟩
    have hstep : syncPlaylistStep false pt (r, st) (td0, okFx) =
        ({ r with skipped := r.skipped + 1, tracks := r.tracks ++ [(td0.title, SyncResult.skipped)] }, st) := by
      simp only [syncPlaylistStep]
      unfold syncTrackToNotion
      rw [show resolveExistingTrack { td0 with type := pt, playlistType := some pt } st
          okFx.isrcQ okFx.taQ = some p from hp]
    rw [List.map_cons, List.foldl_cons, hstep]
    have hih := ih { r with skipped := r.skipped + 1, tracks := r.tracks ++ [(td0.title, SyncResult.skipped)] } st
      (fun t ht => hres t (List.mem_cons_of_mem _ ht))
    refine ⟨hih.1, hih.2.1, ?_⟩
    rw [hih.2.2]
    simp only [List.length_cons]
    omega

/-- Preserve-mode playlist job over the given tracks with every call
succeeding. -/
def mkPreserveJob (pt : String) (items : List TrackData) : PlaylistJob :=
  { service := Service.spotify, playlistType := pt, healthy := true,
    meta := OpOutcome.ok, fetch := Except.ok (items.map (fun td => (td, okFx))) }

/-- Track with neither isrc nor artist, breaking idempotence (C5
counterexample). -/
def c5BadTrack : TrackData := sampleTrack "Untitled Demo" none none

/-- C5 counterexample: on a one-track playlist whose track has no isrc and no
artist, a second Preserve-mode run (no dry-run, sink healthy, no API failure)
still reports one `created` — the record created by the first run is not
found, because both resolver steps bail out on the missing fields
(`findTrackByTitleArtist` returns null for a falsy artist).  The claim's
promised zero `created` on the second run is therefore false. -/
theorem C5_preserve_idempotent_counterexample :
    ((syncSpotifyPlaylist false (mkPreserveJob "Source" [c5BadTrack])
        { pages := [], nextId := 0 }).bind
      (fun x => syncSpotifyPlaylist false (mkPreserveJob "Source" [c5BadTrack]) x.2)).map
        (fun x => x.1.added) = Except.ok 1
    ∧ (Except.ok 1 : Except Unit Nat) ≠ Except.ok 0 :=
  ⟨by decide, by decide⟩

/-- C5 as amended: on playlists whose every track has a truthy isrc, or a
nonempty title and a truthy artist, running the Preserve-mode Playlist Sync
Driver twice in succession (no dry-run, all calls succeeding) produces zero
`created` results on the second run: every track resolves to an existing
Record, all are counted `skipped`, and the sink is unchanged by the second
run. -/
theorem C5_preserve_idempotent :
    ∀ (items : List TrackData) (pt : String) (st : SinkSt) (r1 : SyncResults) (st1 : SinkSt)
      (r2 : SyncResults) (st2 : SinkSt),
      (∀ td ∈ items, goodTrack td = true) →
      syncSpotifyPlaylist false (mkPreserveJob pt items) st = Except.ok (r1, st1) →
      syncSpotifyPlaylist false (mkPreserveJob pt items) st1 = Except.ok (r2, st2) →
      r2.added = 0 ∧ r2.skipped = items.length ∧ st2 = st1 := by
  intro items pt st r1 st1 r2 st2 hgood h1 h2
  have hjob : ∀ s : SinkSt, syncSpotifyPlaylist false (mkPreserveJob pt items) s =
      Except.ok ((items.map (fun td => (td, okFx))).foldl (syncPlaylistStep false pt)
        (emptyResults, s)) := by
    intro s
    rfl
  rw [hjob] at h1 h2
  simp only [Except.ok.injEq] at h1 h2
  have hst1 : ((items.map (fun td => (td, okFx))).foldl (syncPlaylistStep false pt)
      (emptyResults, st)).2 = st1 := congrArg Prod.snd h1
  have hres : ∀ td ∈ items,
      resolvesIn { td with type := pt, playlistType := some pt } st1 := by
    intro td htd
    have := syncRun_resolvable pt items emptyResults st hgood td htd
    rwa [hst1] at this
  have hall := syncRunAllResolved pt items emptyResults st1 hres
  refine ⟨?_, ?_, ?_⟩
  · have := congrArg (fun z => z.1.added) h2
    simp only at this
    rw [← this, hall.2.1]
    rfl
  · have := congrArg (fun z => z.1.skipped) h2
    simp only at this
    rw [← this, hall.2.2]
    simp [emptyResults]
  · have := congrArg Prod.snd h2
    simp only at this
    rw [← this, hall.1]

/-- One-track playlist whose track is re-findable, for the C5 witness. -/
def c5GoodItems : List TrackData := [sampleTrack "Good One" (some "GA") (some "ISRC-G1")]

/-- Sink state after the first C5 witness run. -/
def c5St1 : SinkSt :=
  { pages := [{ id := "page-0",
                props := [(TRACK_TITLE, PropValue.titleVal (some "Good One")),
                          (ARTIST, PropValue.richText (some "GA")),
                          (PERFORMED_BY, PropValue.richText (some "GA")),
                          (DURATION, PropValue.richText (some "3:20")),
                          (ISRC_UPC, PropValue.richText (some "ISRC-G1")),
                          (PLAYLIST, PropValue.selectVal (some "PL")),
                          (TYPE_FIELD, PropValue.selectVal (some "Source")),
                          (REMOVED, PropValue.checkbox false)],
                createdTime := 0 }],
    nextId := 1 }

/-- First-run statistics of the C5 witness. -/
def c5R1 : SyncResults :=
  { added := 1, updated := 0, skipped := 0, errors := 0,
    tracks := [("Good One", SyncResult.created)] }

/-- Second-run statistics of the C5 witness. -/
def c5R2 : SyncResults :=
  { added := 0, updated := 0, skipped := 1, errors := 0,
    tracks := [("Good One", SyncResult.skipped)] }

/-- Witness for C5 at a concrete one-track playlist: the second run creates
nothing, skips the track, and leaves the sink unchanged. -/
theorem C5_preserve_idempotent_witness :
    c5R2.added = 0 ∧ c5R2.skipped = c5GoodItems.length ∧ c5St1 = c5St1 :=
  C5_preserve_idempotent c5GoodItems "Source" { pages := [], nextId := 0 } c5R1 c5St1 c5R2 c5St1
    (by decide) (by decide) (by decide)

/-- Witness for C7 at a concrete input: on an empty sink, the dry-run track
sync leaves the sink untouched and reports the same label (`created`) as the
non-dry-run path would. -/
theorem C7_dry_run_no_mutation_witness :
    (syncTrackToNotion true (sampleTrack "Dry Song" (some "DA") none)
        { pages := [], nextId := 0 } okFx).map Prod.snd =
      Except.ok ({ pages := [], nextId := 0 } : SinkSt)
    ∧ (syncTrackToNotion true (sampleTrack "Dry Song" (some "DA") none)
        { pages := [], nextId := 0 } okFx).map Prod.fst =
      (syncTrackToNotion false (sampleTrack "Dry Song" (some "DA") none)
        { pages := [], nextId := 0 } okFx).map Prod.fst
    ∧ (syncTrackToNotionUpdateMode true (sampleTrack "Dry Song" (some "DA") none)
        { pages := [], nextId := 0 } okFx).map Prod.snd =
      Except.ok ({ pages := [], nextId := 0 } : SinkSt)
    ∧ (syncTrackToNotionUpdateMode true (sampleTrack "Dry Song" (some "DA") none)
        { pages := [], nextId := 0 } okFx).map Prod.fst =
      (syncTrackToNotionUpdateMode false (sampleTrack "Dry Song" (some "DA") none)
        { pages := [], nextId := 0 } okFx).map Prod.fst :=
  C7_dry_run_no_mutation.2.2.2 (sampleTrack "Dry Song" (some "DA") none)
    { pages := [], nextId := 0 } okFx rfl
